import Mathlib

/-
  Verification development for the serversage Discord verification bot.

  Shallow embedding of the verification dialogue state machine
  (services/verification_flow_service.py) and of the LLM gateway
  (llm_integration/llm_client.py), together with theorems settling the
  behavioural claims about them.

  Modelling conventions:
  * JSON values are modelled by the inductive `JValue` (no floats: none of
    the audited code paths depend on them).
  * Python `json.loads` applied to the function-call `arguments` string is
    an external library call; it is passed in as an explicit parameter
    `loads : String -> Option JValue`.
  * Python exceptions are modelled with `Option`/`Except`: `none` at the
    point where the source catches the exception.
  * `discord.Guild.get_role` is modelled by membership in a list
    `guildRoles` of resolvable role ids; a member object's role list is a
    `List Int` of role ids.
-/

namespace Serversage

/-- JSON-like values as produced by `response.json()` / `json.loads`. -/
inductive JValue where
  | jnull : JValue
  | jbool : Bool → JValue
  | jint : Int → JValue
  | jstr : String → JValue
  | jlist : List JValue → JValue
  | jobj : List (String × JValue) → JValue

/-- Dictionary lookup, `d.get(key)` / `key in d` on a decoded JSON object. -/
def lookupKey : List (String × JValue) → String → Option JValue
  | [], _ => none
  | (k, v) :: rest, key => if k = key then some v else lookupKey rest key

/-- Python truthiness of a JSON value. -/
def jTruthy : JValue → Bool
  | .jnull => false
  | .jbool b => b
  | .jint n => n != 0
  | .jstr s => s ≠ ""
  | .jlist xs => !xs.isEmpty
  | .jobj kvs => !kvs.isEmpty

/-- Digits of a decimal numeral, `none` if a non-digit occurs. -/
def pyDigitsVal : List Char → Option Nat → Option Nat
  | _, none => none
  | [], some n => some n
  | c :: rest, some n =>
      if c.isDigit then pyDigitsVal rest (some (n * 10 + (c.toNat - 48)))
      else none

/-- Strip leading and trailing whitespace from a character list (the
whitespace stripping performed by Python `int(str)`). -/
def py_strip (cs : List Char) : List Char :=
  ((cs.dropWhile Char.isWhitespace).reverse.dropWhile Char.isWhitespace).reverse

/-- Python `int(s)` on a string: optional sign, decimal digits,
surrounding whitespace stripped; `none` models `ValueError`. -/
def py_int_of_string (s : String) : Option Int :=
  let cs := py_strip s.toList
  match cs with
  | '+' :: rest =>
      if rest.isEmpty then none else (pyDigitsVal rest (some 0)).map Int.ofNat
  | '-' :: rest =>
      if rest.isEmpty then none
      else (pyDigitsVal rest (some 0)).map (fun n => -(n : Int))
  | _ =>
      if cs.isEmpty then none else (pyDigitsVal cs (some 0)).map Int.ofNat

/-- Python `int(v)` on a JSON value; `none` models `TypeError`/`ValueError`. -/
def py_int : JValue → Option Int
  | .jint n => some n
  | .jbool b => some (if b then 1 else 0)
  | .jstr s => py_int_of_string s
  | _ => none

/-- `[int(rid) for rid in xs if rid is not None]`; `none` models the raised
`ValueError`/`TypeError` that the source catches (llm_client.py:549-554). -/
def py_int_list_conv : List JValue → Option (List Int)
  | [] => some []
  | .jnull :: rest => py_int_list_conv rest
  | v :: rest =>
      match py_int v with
      | none => none
      | some n => (py_int_list_conv rest).map (fun l => n :: l)

/-- Per-category coercion of a classification value
(llm_client.py:547-557): a list is converted element-wise with `int`
(dropping nulls), becoming `[]` if any element fails; a non-list becomes
`[]`. -/
def coerceCategoryValue : JValue → List Int
  | .jlist xs => (py_int_list_conv xs).getD []
  | _ => []

/-- Whether a JSON value is literally a list of integers (used to state the
spec sentence about output coercion). -/
def is_int_list : JValue → Bool
  | .jlist xs => xs.all (fun x => match x with | .jint _ => true | _ => false)
  | _ => false

/-- A classification after coercion: category name to role-id list. -/
abbrev Classification := List (String × List Int)

/-- Typed view of the guidance dict handed to the state machine
(`LLMVerificationResponse` in llm_client.py). Only the fields the source
validates are typed; the rest stay raw JSON values. -/
structure LLMVerificationResponse where
  classification : Option Classification
  message_to_user : JValue
  is_complete : JValue
  user_has_confirmed : Bool
  unassignable_skills : JValue

/-- Validation and in-place coercion of the decoded function-call payload
(llm_client.py:540-559): requires the `message_to_user` and `is_complete`
keys and a strictly boolean `user_has_confirmed`; coerces the
classification per category. `none` models falling through to the fallback
response. -/
def parse_verification_payload (kvs : List (String × JValue)) :
    Option LLMVerificationResponse :=
  match lookupKey kvs ("message_to_user"), lookupKey kvs ("is_complete"),
      lookupKey kvs ("user_has_confirmed") with
  | some msg, some compl, some (.jbool conf) =>
      let classification : Option Classification :=
        match lookupKey kvs ("classification") with
        | none => none
        | some .jnull => none
        | some (.jobj cats) =>
            some (cats.map (fun p => (p.1, coerceCategoryValue p.2)))
        | some _ => none
      some { classification := classification, message_to_user := msg,
             is_complete := compl, user_has_confirmed := conf,
             unassignable_skills := (lookupKey kvs ("unassignable_skills")).getD .jnull }
  | _, _, _ => none

/-- The fallback guidance dict (llm_client.py:571-578). -/
def fallback_resp : LLMVerificationResponse :=
  { classification := none,
    message_to_user :=
      .jstr ("I\x27m currently having trouble processing information. Please try again in a few moments."),
    is_complete := .jbool false,
    user_has_confirmed := false,
    unassignable_skills := .jnull }

/-- The dict returned on a template substitution error
(llm_client.py:507,510). -/
def template_error_resp (msg : String) : LLMVerificationResponse :=
  { classification := none, message_to_user := .jstr msg,
    is_complete := .jbool false, user_has_confirmed := false,
    unassignable_skills := .jnull }

/- ===== Transport layer: `LLMClient._make_llm_request` ===== -/

/-- Outcome of one `http_session.post` attempt (plus the later
`raise_for_status` / `.json()` steps on its response): `resp statusOk body`
is a delivered HTTP response, with `body = none` when the response text is
not valid JSON. -/
inductive PostOutcome where
  | readTimeout : PostOutcome
  | timeoutOther : PostOutcome
  | netError : PostOutcome
  | resp : Bool → Option JValue → PostOutcome

/-- Errors of the request primitive, as caught by the outer
`try`/`except` of `_make_llm_request`. -/
inductive LlmCallError where
  | readTimeout : LlmCallError
  | timeoutOther : LlmCallError
  | netError : LlmCallError

/-- `max_attempts = 2` (llm_client.py:130). -/
def max_attempts : Nat := 2

/-- `backoff_seconds = 0.8` (llm_client.py:131). -/
def backoff_seconds : ℚ := 4 / 5

/-- Sleep before retrying attempt `attempt`: `backoff_seconds * attempt`
(llm_client.py:142): linear backoff. -/
def backoff_delay (attempt : Nat) : ℚ := backoff_seconds * attempt

/-- The retry loop of `_make_llm_request` (llm_client.py:133-150), driven
by an oracle giving each attempt's outcome. Returns the response (status
flag and decoded body) or the raised error, plus the number of the attempt
on which the loop stopped. Timeouts are retried while attempts remain; any
other failure propagates at once. -/
def attempt_post (oracle : Nat → PostOutcome) :
    Nat → Nat → (Except LlmCallError (Bool × Option JValue)) × Nat
  | attempt, 0 => (Except.error .netError, attempt)
  | attempt, Nat.succ rem =>
      match oracle attempt with
      | .readTimeout =>
          if rem > 0 then attempt_post oracle (attempt + 1) rem
          else (Except.error .readTimeout, attempt)
      | .timeoutOther =>
          if rem > 0 then attempt_post oracle (attempt + 1) rem
          else (Except.error .timeoutOther, attempt)
      | .netError => (Except.error .netError, attempt)
      | .resp ok body => (Except.ok (ok, body), attempt)

/-- Run the attempt loop from attempt 1 with `max_attempts` budget. -/
def run_attempts (oracle : Nat → PostOutcome) :
    (Except LlmCallError (Bool × Option JValue)) × Nat :=
  attempt_post oracle 1 max_attempts

/-- Number of HTTP attempts actually made by a call. -/
def attempts_used (oracle : Nat → PostOutcome) : Nat :=
  (run_attempts oracle).2

/-- The expected-content check of `_make_llm_request`
(llm_client.py:170-177): `message.content` at top level, or
`choices[0].message` with `content` or `function_call`. -/
def has_expected_structure : JValue → Bool
  | .jobj kvs =>
      (match lookupKey kvs ("message") with
       | some (.jobj mkvs) => (lookupKey mkvs ("content")).isSome
       | _ => false)
      ||
      (match lookupKey kvs ("choices") with
       | some (.jlist (c :: _)) =>
           (match c with
            | .jobj ckvs =>
                (match lookupKey ckvs ("message") with
                 | some (.jobj mk) =>
                     (lookupKey mk ("content")).isSome
                     || (lookupKey mk ("function_call")).isSome
                 | _ => false)
            | _ => false)
       | _ => false)
  | _ => false

/-- `LLMClient._make_llm_request` (llm_client.py:81-194): runs the retry
loop; every raised transport error is caught and surfaces as `none`; an
HTTP error status, undecodable body, or missing expected structure also
yields `none`; otherwise the decoded body is returned. -/
def make_llm_request (oracle : Nat → PostOutcome) : Option JValue :=
  match (run_attempts oracle).1 with
  | .error _ => none
  | .ok (statusOk, body) =>
      if !statusOk then none
      else
        match body with
        | none => none
        | some bd => if has_expected_structure bd then some bd else none

/- ===== Guidance extraction: `LLMClient.get_verification_guidance` ===== -/

/-- `llm_response_data.get("choices", [{}])[0]` (llm_client.py:530); `none`
models an exception (empty list index, non-dict body), which the source
catches and turns into the fallback. -/
def first_choice : JValue → Option JValue
  | .jobj kvs =>
      match lookupKey kvs ("choices") with
      | none => some (.jobj [])
      | some (.jlist (c :: _)) => some c
      | some _ => none
  | _ => none

/-- `choice.get("message", {}).get("function_call")` with its truthiness
test (llm_client.py:534); `none` covers both an absent/falsy value and a
raised exception. -/
def get_function_call : JValue → Option JValue
  | .jobj kvs =>
      match lookupKey kvs ("message") with
      | none => none
      | some (.jobj mkvs) =>
          match lookupKey mkvs ("function_call") with
          | some fc => if jTruthy fc then some fc else none
          | none => none
      | some _ => none
  | _ => none

/-- Extraction of a validated guidance payload from a delivered response
body (llm_client.py:528-568). `none` means the source falls through to the
fallback response. `loads` stands for `json.loads` on the `arguments`
string. -/
def guidance_from_body (loads : String → Option JValue) (body : JValue) :
    Option LLMVerificationResponse :=
  match first_choice body with
  | none => none
  | some choice =>
      match get_function_call choice with
      | some (.jobj fckvs) =>
          match lookupKey fckvs ("name") with
          | some (.jstr nm) =>
              if nm = "propose_user_roles" then
                match (lookupKey fckvs ("arguments")).getD (.jstr ("\x7b\x7d")) with
                | .jstr args_str =>
                    match loads args_str with
                    | some (.jobj kvs) => parse_verification_payload kvs
                    | _ => none
                | _ => none
              else none
          | _ => none
      | _ => none

/-- Result of `Template(...).substitute` on the verification prompt
(llm_client.py:500-510); `ok f` carries the substitution function. -/
inductive TemplateOutcome where
  | ok : (String → String) → TemplateOutcome
  | keyError : TemplateOutcome
  | valueError : TemplateOutcome

/-- Static configuration of the LLM client relevant to guidance calls:
whether the user-verification schema file loaded (llm_client.py:516), the
prompt template, and the `json.loads` decoder. -/
structure LlmCfg where
  schemaLoaded : Bool
  tmpl : TemplateOutcome
  loads : String → Option JValue

/-- `LLMClient.get_verification_guidance` (llm_client.py:484-578) given
the transport result `body?` (the value of `_make_llm_request`). A
template error returns an inline error dict; a missing schema returns
`None`; every other failure (transport failure, missing function call,
undecodable or invalid payload) returns the fallback response. -/
def get_verification_guidance (cfg : LlmCfg) (body? : Option JValue) :
    Option LLMVerificationResponse :=
  match cfg.tmpl with
  | .keyError => some (template_error_resp ("Prompt error."))
  | .valueError => some (template_error_resp ("Prompt syntax error."))
  | .ok _ =>
      if cfg.schemaLoaded then
        match body? with
        | none => some fallback_resp
        | some body => some ((guidance_from_body cfg.loads body).getD fallback_resp)
      else none

/-- A well-formed response body whose single choice carries a
`propose_user_roles` function call with the given arguments string (used
to exhibit concrete gateway behaviour). -/
def wrap_function_call_body (args_str : String) : JValue :=
  .jobj [(("choices"),
    .jlist [.jobj [(("message"),
      .jobj [(("function_call"),
        .jobj [(("name"), .jstr ("propose_user_roles")),
               (("arguments"), .jstr args_str)])])]])]

/- ===== Verification flow service: context, session, prompt building ===== -/

/-- Guild/bot level data seen by `VerificationFlowService`: resolvable
role ids (`guild.get_role`), the bot's taxonomy maps, and the settings
role ids and retry budget. -/
structure BotCtx where
  guildRoles : List Int
  categorized_server_roles : List (String × List Int)
  server_roles_map : List (Int × String)
  VERIFIED_ROLE_ID : Int
  UNVERIFIED_ROLE_ID : Int
  VERIFICATION_IN_PROGRESS_ROLE_ID : Int
  VERIFICATION_RETRIES : Nat

/-- `server_roles_map.get(rid)`. -/
def lookup_role_name (m : List (Int × String)) (rid : Int) : Option String :=
  (m.find? (fun p => p.1 == rid)).map (fun p => p.2)

/-- The set of all bot-manageable role ids, i.e. the union of the taxonomy
categories (verification_flow_service.py:41-43 and 423-426). -/
def all_manageable_role_ids (categorized : List (String × List Int)) : List Int :=
  categorized.foldl (fun acc p => acc ++ p.2) []

/-- `VerificationFlowService._get_member_current_manageable_roles_text`
(verification_flow_service.py:33-56). -/
def get_member_current_manageable_roles_text (ctx : BotCtx)
    (memberRoles : List Int) : String × List Int :=
  if ctx.categorized_server_roles.isEmpty || ctx.server_roles_map.isEmpty then
    (("Could not retrieve current roles information."), [])
  else
    let allIds := all_manageable_role_ids ctx.categorized_server_roles
    let pairs := memberRoles.filter (fun rid =>
      allIds.contains rid && (lookup_role_name ctx.server_roles_map rid).isSome)
    let names := pairs.filterMap (lookup_role_name ctx.server_roles_map)
    if names.isEmpty then
      (("You don\x27t seem to have any skill/experience/OS roles assigned by me yet."), [])
    else
      (("I see you currently have the following roles related to skills/experience/OS: ")
        ++ String.intercalate (", ") names ++ ".", pairs)

/-- The final-attempt directive prepended to the user's last-chance input
(verification_flow_service.py:230-239). -/
def final_attempt_instruction : String :=
  "[System Instruction for LLM: This is the user\x27s final attempt in this session. "
  ++ "Based on the entire conversation, make your best effort to classify their roles. "
  ++ "In your \x27message_to_user\x27, clearly state the roles that WILL BE ASSIGNED, "
  ++ "do NOT ask for further textual confirmation (like \x27is this correct? say yes\x27), "
  ++ "and inform them they can use the /assign-roles command for future changes. "
  ++ "You MUST set \x27user_has_confirmed\x27 to true and \x27is_complete\x27 to true in your JSON response if you propose any final set of roles, even if it\x27s based on partial information. "
  ++ "If you cannot determine any roles even on this final attempt, state that clearly in \x27message_to_user\x27 and set \x27classification\x27 to null or empty, but still set \x27user_has_confirmed\x27 and \x27is_complete\x27 to true to conclude the session.]\n"
  ++ "User\x27s actual final input is: "

/-- Roles of chat messages. -/
inductive ChatRole where
  | system : ChatRole
  | assistant : ChatRole
  | user : ChatRole
deriving BEq, DecidableEq

/-- One conversation-history / request-message entry. -/
structure HistEntry where
  role : ChatRole
  content : JValue

/-- Per-user session state (`active_verifications[member.id]`,
verification_flow_service.py:92-99). -/
structure Session where
  retries_left : Nat
  conversation_history : List HistEntry
  last_proposed_classification : Option Classification
  is_update_session : Bool
  initial_manageable_role_ids : List Int
  accumulated_unmappable_skills : List JValue

/-- The role names displayed in the context note
(verification_flow_service.py:212-214): names of the member's current
manageable roles that resolve to a truthy entry of the roles map. -/
def update_note_names (ctx : BotCtx) (memberRoles : List Int) : List String :=
  ((get_member_current_manageable_roles_text ctx memberRoles).2).filterMap (fun rid =>
    match lookup_role_name ctx.server_roles_map rid with
    | some nm => if nm ≠ "" then some nm else none
    | none => none)

/-- The `prepended_context` note built for the first substantive user
reply of an update session (verification_flow_service.py:208-223). -/
def update_context_note (ctx : BotCtx) (memberRoles : List Int)
    (input : String) : String :=
  if !((get_member_current_manageable_roles_text ctx memberRoles).2).isEmpty then
    let names := update_note_names ctx memberRoles
    if !names.isEmpty then
      ("[System Note: User is updating roles. Current roles: ")
        ++ String.intercalate (", ") names
        ++ ". User\x27s request follows.]\nUser: " ++ input
    else
      ("[System Note: User is updating roles (may have general \x27verified\x27 status). User\x27s request follows.]\nUser: ")
        ++ input
  else
    ("[System Note: User is initiating verification (may already be \x27verified\x27 generally). User\x27s request follows.]\nUser: ")
      ++ input

/-- Context-note / final-attempt preprocessing of one user reply
(verification_flow_service.py:202-252). On the first message of an update
session the context note is prepended to the user's text; when
`retries_left == 1` the whole input is wrapped (and, for update sessions,
rebuilt) behind the final-attempt directive. -/
def process_user_input (ctx : BotCtx) (memberRoles : List Int) (s : Session)
    (isFirst : Bool) (input : String) : String :=
  let base :=
    if isFirst && s.is_update_session then update_context_note ctx memberRoles input
    else input
  if s.retries_left == 1 then
    if s.is_update_session then
      let user_part :=
        ("[System Note: User wants to update roles. ")
          ++ (get_member_current_manageable_roles_text ctx memberRoles).1
          ++ "]\nUser\x27s request: " ++ input
      final_attempt_instruction ++ user_part
    else
      final_attempt_instruction ++ input
  else base

/-- The request message list built by `get_verification_guidance`
(llm_client.py:512-514): one system message, then the history passed in
(`conversation_history[:-1]`), then the current user turn. -/
def build_llm_messages (system_prompt : String) (history : List HistEntry)
    (user_message : String) : List HistEntry :=
  ⟨ChatRole.system, .jstr system_prompt⟩ ::
    (history ++ [⟨ChatRole.user, .jstr user_message⟩])

/-- Number of entries with the given chat role. -/
def count_role (r : ChatRole) (l : List HistEntry) : Nat :=
  (l.filter (fun e => e.role == r)).length

/-- The human-readable category/role listing substituted into the system
prompt (llm_client.py:491-498). -/
def available_roles_text (ctx : BotCtx) : String :=
  let parts := ctx.categorized_server_roles.filterMap (fun p =>
    let names := p.2.filterMap (fun rid =>
      (lookup_role_name ctx.server_roles_map rid).map (fun nm =>
        "\x27" ++ nm ++ "\x27 (ID: " ++ toString rid ++ ")"))
    if names.isEmpty then none
    else some ("- " ++ p.1 ++ ": " ++ String.intercalate (", ") names))
  let txt := String.intercalate ("\n") parts
  if txt = "" then
    "No specific skill/experience/OS roles are currently defined for classification."
  else txt

/- ===== Unassignable-skill accumulation (verification_flow_service.py:282-294) ===== -/

/-- `v.get(key, dflt)`; `none` models the `AttributeError` raised when `v`
is not a dict. -/
def j_get_default (v : JValue) (key : String) (dflt : JValue) : Option JValue :=
  match v with
  | .jobj kvs => some ((lookupKey kvs key).getD dflt)
  | _ => none

/-- `.lower()` on a value; `none` models `AttributeError` on non-strings. -/
def py_lower : JValue → Option String
  | .jstr s => some s.toLower
  | _ => none

/-- The duplicate test over already-accumulated skill dicts
(verification_flow_service.py:288-292), with Python generator laziness:
entries after a match are not evaluated. `none` models a raised
exception. -/
def check_duplicate : List JValue → JValue → Option Bool
  | [], _ => some false
  | e :: rest, item =>
      match j_get_default e ("skill") (.jstr "") with
      | none => none
      | some esv =>
          match py_lower esv with
          | none => none
          | some esl =>
              match j_get_default item ("skill") (.jstr "") with
              | none => none
              | some isv =>
                  match py_lower isv with
                  | none => none
                  | some isl =>
                      if esl = isl then
                        match j_get_default e ("category") (.jstr ""),
                            j_get_default item ("category") (.jstr "") with
                        | some ecv, some icv =>
                            (match py_lower ecv, py_lower icv with
                             | some ecl, some icl =>
                                 if ecl = icl then some true
                                 else check_duplicate rest item
                             | _, _ => none)
                        | _, _ => none
                      else check_duplicate rest item

/-- Accumulation of unmappable skills with duplicate filtering
(verification_flow_service.py:286-294). `none` models a raised exception
(caught by the generic handler, which concludes the session). -/
def accumulate_unmappable : List JValue → List JValue → Option (List JValue)
  | acc, [] => some acc
  | acc, item :: rest =>
      match check_duplicate acc item with
      | none => none
      | some dup =>
          match j_get_default item ("skill") .jnull with
          | none => none
          | some sk =>
              let acc2 := if !dup && jTruthy sk then acc ++ [item] else acc
              accumulate_unmappable acc2 rest

/-- `if llm_guidance.get('unassignable_skills'):` plus the accumulation
loop (verification_flow_service.py:282-294); `none` models a raised
exception (truthy non-list value, non-dict element, ...). -/
def process_unassignable (s : Session) (u : JValue) : Option Session :=
  if jTruthy u then
    match u with
    | .jlist items =>
        (accumulate_unmappable s.accumulated_unmappable_skills items).map
          (fun acc => { s with accumulated_unmappable_skills := acc })
    | _ => none
  else some s

/-- Flattening of a classification into the proposed role-id list
(verification_flow_service.py:308-312): concatenation of the per-category
lists. -/
def flatten_classification : Option Classification → List Int
  | none => []
  | some kvs => kvs.foldl (fun acc p => acc ++ p.2) []

/- ===== One DM-loop turn (verification_flow_service.py:189-351) ===== -/

/-- Where the state machine stands after processing one user reply:
back to waiting for the next DM, or concluded (the success payload is the
guild-filtered deduplicated proposed role-id list passed to
`_conclude_verification`). -/
inductive TurnOutcome where
  | awaitReply : Session → Bool → TurnOutcome
  | concludedSuccess : List Int → Session → TurnOutcome
  | concludedFailure : String → TurnOutcome

/-- Result of one turn: the `user_message` string handed to the gateway,
the request message list it builds, and the state-machine outcome. -/
structure TurnResult where
  sent_to_llm : String
  sent_messages : List HistEntry
  outcome : TurnOutcome

/-- Tail of the DM-loop body after the history/classification updates
(verification_flow_service.py:282-344), applied to the updated session
`s2`: accumulate unassignable skills (an exception there concludes the
session through the generic handler at lines 335-339), then either
conclude with success on `user_has_confirmed is True` (lines 304-317) or
decrement the retry counter, concluding with failure when it reaches zero
(lines 320, 341-351). -/
def guidance_turn_outcome (ctx : BotCtx) (s2 : Session)
    (g : LLMVerificationResponse) : TurnOutcome :=
  match process_unassignable s2 g.unassignable_skills with
  | none => .concludedFailure ("Internal error during DM conversation.")
  | some sC =>
      if g.user_has_confirmed then
        .concludedSuccess
          ((flatten_classification g.classification).dedup.filter
            (fun rid => ctx.guildRoles.contains rid)) sC
      else
        let sD := { sC with retries_left := sC.retries_left - 1 }
        if sD.retries_left = 0 then
          .concludedFailure ("Max retries reached after conversation attempts.")
        else .awaitReply sD false

/-- The body of the DM loop for one received user reply, given the
guidance value the gateway returned (verification_flow_service.py:
202-344). Mirrors the source exactly, including the duplicated history
append and classification assignment at lines 274-279. -/
def handle_guidance_step (ctx : BotCtx) (memberRoles : List Int)
    (system_prompt : String) (s : Session) (isFirst : Bool) (input : String)
    (guidance? : Option LLMVerificationResponse) : TurnResult :=
  let processed := process_user_input ctx memberRoles s isFirst input
  let msgs := build_llm_messages system_prompt s.conversation_history processed
  match guidance? with
  | none =>
      -- `if not llm_guidance:` re-prompt, pop the user entry, continue
      -- without touching retries (lines 268-272)
      { sent_to_llm := processed, sent_messages := msgs,
        outcome := .awaitReply s false }
  | some g =>
      let h1 := s.conversation_history ++ [⟨ChatRole.user, .jstr processed⟩]
      let h2 := h1 ++ [⟨ChatRole.assistant, g.message_to_user⟩]
      let sA := { s with conversation_history := h2, last_proposed_classification := g.classification }
      let h3 := sA.conversation_history ++ [⟨ChatRole.assistant, g.message_to_user⟩]
      let sB := { sA with conversation_history := h3, last_proposed_classification := g.classification }
      { sent_to_llm := processed, sent_messages := msgs,
        outcome := guidance_turn_outcome ctx sB g }

/-- The session state as updated by the two (duplicated) history appends
and classification assignments of a guidance turn. -/
def turn_session_after (ctx : BotCtx) (memberRoles : List Int)
    (s : Session) (isFirst : Bool) (input : String)
    (g : LLMVerificationResponse) : Session :=
  let hist :=
    (s.conversation_history ++
        [⟨ChatRole.user, .jstr (process_user_input ctx memberRoles s isFirst input)⟩] ++
      [⟨ChatRole.assistant, g.message_to_user⟩]) ++
    [⟨ChatRole.assistant, g.message_to_user⟩]
  { s with conversation_history := hist, last_proposed_classification := g.classification }

/-- Per-turn environment: the transport oracle for this turn's
`_make_llm_request` call. -/
structure TurnEnv where
  oracle : Nat → PostOutcome

/-- One full DM-loop turn: gateway call composed with the loop body. -/
def handle_verification_turn (ctx : BotCtx) (memberRoles : List Int)
    (cfg : LlmCfg) (env : TurnEnv) (s : Session) (isFirst : Bool)
    (input : String) : TurnResult :=
  let body? := make_llm_request env.oracle
  let guidance? := get_verification_guidance cfg body?
  let sp :=
    match cfg.tmpl with
    | .ok f => f (available_roles_text ctx)
    | _ => ""
  handle_guidance_step ctx memberRoles sp s isFirst input guidance?

/-- Retries counter visible in a still-waiting outcome. -/
def outcome_retries : TurnOutcome → Option Nat
  | .awaitReply s _ => some s.retries_left
  | _ => none

/-- Whether an outcome is terminal for the session. -/
def is_concluded : TurnOutcome → Bool
  | .awaitReply _ _ => false
  | .concludedSuccess _ _ => true
  | .concludedFailure _ => true

/-- Iterated DM turns at the guidance level: runs until the turn list is
exhausted (still awaiting) or the session concludes. -/
def run_dm_turns (ctx : BotCtx) (memberRoles : List Int) (system_prompt : String) :
    Session → Bool → List (String × Option LLMVerificationResponse) →
      Session ⊕ TurnOutcome
  | s, _, [] => Sum.inl s
  | s, f, (input, g?) :: rest =>
      match (handle_guidance_step ctx memberRoles system_prompt s f input g?).outcome with
      | .awaitReply s2 f2 => run_dm_turns ctx memberRoles system_prompt s2 f2 rest
      | o => Sum.inr o

/- ===== Session store and session start (verification_flow_service.py:59-162) ===== -/

/-- The in-memory session store `active_verifications`, keyed by user id. -/
abbrev Store := List (Nat × Session)

/-- `member.id in self.active_verifications`. -/
def store_contains (store : Store) (uid : Nat) : Bool :=
  store.any (fun p => p.1 == uid)

/-- `self.active_verifications.pop(member.id, None)` (the removal part). -/
def store_erase (store : Store) (uid : Nat) : Store :=
  store.filter (fun p => p.1 != uid)

/-- `self.active_verifications[member.id] = state`. -/
def store_insert (store : Store) (uid : Nat) (s : Session) : Store :=
  (uid, s) :: store_erase store uid

/-- How `start_verification_process` ends. -/
inductive StartOutcome where
  | botSkipped : StartOutcome
  | alreadyActive : StartOutcome
  | misconfigInProgressRole : StartOutcome
  | started : Session → StartOutcome

/-- The opening DM (verification_flow_service.py:126-140); Spanish
accents transliterated to ASCII. -/
def initial_dm_message (member_mention guild_name : String)
    (is_update : Bool) : String :=
  if is_update then
    ("To update your roles, please tell me what you\x27d like to change, add, or remove regarding your skills (Programming Languages, Experience Level, OS).\n\n")
      ++ "Para actualizar tus roles, por favor dime que te gustaria cambiar, anadir o eliminar sobre tus habilidades (Lenguajes de Programacion, Nivel de Experiencia, Sistemas Operativos)."
  else
    ("Hello ") ++ member_mention ++ "! Welcome to  **" ++ guild_name ++ "**.\n"
      ++ "To get started, please tell me about your skills (e.g., Programming Languages, Experience Level, Operating Systems).\n\n"
      ++ "Hola " ++ member_mention ++ "! Bienvenido a **" ++ guild_name ++ "**.\n"
      ++ "Para comenzar, por favor cuentame sobre tus habilidades (ej. Lenguajes de Programacion, Nivel de Experiencia, Sistemas Operativos)."

/-- `VerificationFlowService.start_verification_process`
(verification_flow_service.py:59-152), up to the point where the DM loop
takes over: bots are skipped; an existing session short-circuits with an
already-in-progress notice and no state change; otherwise a fresh session
is stored, and if the in-progress marker role cannot be resolved the entry
is popped again and the start aborts. On success the opening DM becomes
the first (assistant) history entry. -/
def start_verification_process (ctx : BotCtx) (store : Store) (uid : Nat)
    (is_bot : Bool) (memberRoles : List Int)
    (member_mention guild_name : String) : Store × StartOutcome :=
  if is_bot then (store, .botSkipped)
  else if store_contains store uid then (store, .alreadyActive)
  else
    let verifiedHeld :=
      decide (ctx.VERIFIED_ROLE_ID ∈ ctx.guildRoles) &&
        decide (ctx.VERIFIED_ROLE_ID ∈ memberRoles)
    let pr := get_member_current_manageable_roles_text ctx memberRoles
    let is_update := verifiedHeld || !pr.2.isEmpty
    let s0 : Session :=
      { retries_left := ctx.VERIFICATION_RETRIES, conversation_history := [],
        last_proposed_classification := none, is_update_session := is_update,
        initial_manageable_role_ids := pr.2, accumulated_unmappable_skills := [] }
    let store1 := store_insert store uid s0
    if !(ctx.guildRoles.contains ctx.VERIFICATION_IN_PROGRESS_ROLE_ID) then
      (store_erase store1 uid, .misconfigInProgressRole)
    else
      let dm := initial_dm_message member_mention guild_name is_update
      let s1 := { s0 with conversation_history := [⟨ChatRole.assistant, .jstr dm⟩] }
      (store_insert store1 uid s1, .started s1)

/- ===== Conclusion reconciler (verification_flow_service.py:376-512) ===== -/

/-- Append with guild/taxonomy conditions and the `not in` duplicate guard
used by the add/remove loops of `_conclude_verification`
(verification_flow_service.py:428-436). -/
def append_unique (cond : Int → Bool) : List Int → List Int → List Int
  | acc, [] => acc
  | acc, r :: rest =>
      append_unique cond (if cond r && !(decide (r ∈ acc)) then acc ++ [r] else acc) rest

/-- The role delta computed by `_conclude_verification`
(verification_flow_service.py:401-436, 476-485): (roles_to_add_final,
roles_to_remove_final) as role-id lists, in source order. -/
def conclude_role_delta (ctx : BotCtx) (memberRoles : List Int)
    (success : Bool) (proposed : List Int) : List Int × List Int :=
  let ip := ctx.VERIFICATION_IN_PROGRESS_ROLE_ID
  let v := ctx.VERIFIED_ROLE_ID
  let uv := ctx.UNVERIFIED_ROLE_ID
  let remove0 :=
    if decide (ip ∈ ctx.guildRoles) && decide (ip ∈ memberRoles) then [ip] else []
  if success then
    if !(decide (v ∈ ctx.guildRoles)) then
      ((if decide (uv ∈ ctx.guildRoles) && !(decide (uv ∈ memberRoles)) then [uv] else []),
       remove0)
    else
      let add1 := if !(decide (v ∈ memberRoles)) then [v] else []
      let remove1 := remove0 ++
        (if decide (uv ∈ ctx.guildRoles) && decide (uv ∈ memberRoles) then [uv] else [])
      let managed := all_manageable_role_ids ctx.categorized_server_roles
      let add2 := append_unique (fun rid =>
        decide (rid ∈ managed) && decide (rid ∈ ctx.guildRoles) &&
          !(decide (rid ∈ memberRoles))) add1 proposed
      let remove2 := append_unique (fun rid =>
        decide (rid ∈ managed) && !(decide (rid ∈ proposed))) remove1 memberRoles
      (add2, remove2)
  else
    if !(decide (uv ∈ ctx.guildRoles)) then ([], remove0)
    else ((if !(decide (uv ∈ memberRoles)) then [uv] else []), remove0)

/-- The failure/critical-error DM chosen by `_conclude_verification`
(verification_flow_service.py:414-417, 478-485); `none` on the ordinary
success path. -/
def conclude_final_dm (ctx : BotCtx)
    (success : Bool) (reason guild_name : String) : Option String :=
  if success then
    if !(ctx.guildRoles.contains ctx.VERIFIED_ROLE_ID) then
      some ("A system error occurred (verified role missing). Please contact an admin.")
    else none
  else
    if !(ctx.guildRoles.contains ctx.UNVERIFIED_ROLE_ID) then
      some ("System error (unverified role missing). Contact admin.")
    else
      some (("The verification process for **") ++ guild_name
        ++ "** could not be completed. Reason: " ++ reason
        ++ "\nAssigned \x27unverified\x27 status. Try `/assign-roles` again or contact admin.")

/-- Admin notification titles (verification_flow_service.py:442,472,487);
emoji prefixes dropped. -/
def new_user_title (display_name : String) : String :=
  ("New User Verified: ") ++ display_name

/-- Title for a role-update conclusion. -/
def update_title (display_name : String) : String :=
  ("User Roles Updated: ") ++ display_name

/-- Title for a failed conclusion. -/
def failed_title (display_name : String) : String :=
  ("Verification Failed: ") ++ display_name

/-- Externally visible steps of `_conclude_verification`, in program
order. -/
inductive ConcludeEffect where
  | pop_session : Nat → ConcludeEffect
  | llm_summary_request : ConcludeEffect
  | remove_roles : List Int → ConcludeEffect
  | add_roles : List Int → ConcludeEffect
  | send_dm : String → ConcludeEffect
  | admin_notification : String → ConcludeEffect

/-- Whether an effect is the session-store removal. -/
def is_pop_effect : ConcludeEffect → Bool
  | .pop_session _ => true
  | _ => false

/-- `VerificationFlowService._conclude_verification`
(verification_flow_service.py:376-512) as a store transformer plus an
ordered effect trace: the session is popped first (line 380); if the
member left the guild nothing else happens; otherwise the new-user LLM
summary is requested (success of a non-update session, line 462), then
roles are removed and added as two batched deduplicated calls (lines
493-496), then the failure/critical DM is sent if any (line 503), then
one admin notification is emitted (line 512). -/
def conclude_verification (ctx : BotCtx) (store : Store) (uid : Nat)
    (member_in_guild : Bool) (memberRoles : List Int) (success : Bool)
    (proposed : List Int) (reason guild_name display_name : String) :
    Store × List ConcludeEffect :=
  let state? := (store.find? (fun p => p.1 == uid)).map (fun p => p.2)
  let store2 := store_erase store uid
  let was_update := (state?.map (fun st => st.is_update_session)).getD false
  if !member_in_guild then (store2, [ConcludeEffect.pop_session uid])
  else
    let delta := conclude_role_delta ctx memberRoles success proposed
    let removesD := delta.2.dedup
    let addsD := delta.1.dedup
    let summary_effs :=
      if success && !was_update then [ConcludeEffect.llm_summary_request] else []
    let role_effs :=
      (if !removesD.isEmpty then [ConcludeEffect.remove_roles removesD] else []) ++
        (if !addsD.isEmpty then [ConcludeEffect.add_roles addsD] else [])
    let dm_effs :=
      match conclude_final_dm ctx success reason guild_name with
      | some m => [ConcludeEffect.send_dm m]
      | none => []
    let title :=
      if success then
        (if was_update then update_title display_name else new_user_title display_name)
      else failed_title display_name
    (store2,
      ConcludeEffect.pop_session uid ::
        (summary_effs ++ role_effs ++ dm_effs ++ [ConcludeEffect.admin_notification title]))

/-- Effect on the member's role set of applying a role delta (the two
batched `remove_roles`/`add_roles` platform calls). -/
def apply_role_delta (memberRoles : List Int) (delta : List Int × List Int) : List Int :=
  (memberRoles.filter (fun r => !(decide (r ∈ delta.2)))) ++ delta.1

/- ===== Spec-side reconciler formulas (for the refinement claims) ===== -/

/-- The taxonomy role-id set. -/
def taxonomy_finset (ctx : BotCtx) : Finset Int :=
  (all_manageable_role_ids ctx.categorized_server_roles).toFinset

/-- Modelled from the spec wording of the success-path reconciler:
`rolesToAdd = (verified-status role if not held) ∪ ((P ∩ T) \ C)`. -/
def spec_roles_to_add (ctx : BotCtx) (currentRoles proposed : Finset Int) : Finset Int :=
  (if ctx.VERIFIED_ROLE_ID ∈ currentRoles then ∅ else {ctx.VERIFIED_ROLE_ID}) ∪
    ((proposed ∩ taxonomy_finset ctx) \ currentRoles)

/-- Modelled from the spec wording of the success-path reconciler:
`rolesToRemove = (in-progress marker if held) ∪ (unverified-status role if
held) ∪ ((C ∩ T) \ P)`. -/
def spec_roles_to_remove (ctx : BotCtx) (currentRoles proposed : Finset Int) : Finset Int :=
  (if ctx.VERIFICATION_IN_PROGRESS_ROLE_ID ∈ currentRoles then
      {ctx.VERIFICATION_IN_PROGRESS_ROLE_ID} else ∅) ∪
    (if ctx.UNVERIFIED_ROLE_ID ∈ currentRoles then {ctx.UNVERIFIED_ROLE_ID} else ∅) ∪
    ((currentRoles ∩ taxonomy_finset ctx) \ proposed)

/- ===== Concrete fixtures ===== -/

/-- A small guild: taxonomy roles 1,2 (languages) and 8 (OS); verified 10,
unverified 11, in-progress 12. -/
def ex_ctx : BotCtx :=
  { guildRoles := [10, 11, 12, 1, 2, 8],
    categorized_server_roles :=
      [(("Programming_Language"), [1, 2]), (("Operating_System"), [8])],
    server_roles_map := [(1, ("Python")), (2, ("Go")), (8, ("Linux"))],
    VERIFIED_ROLE_ID := 10, UNVERIFIED_ROLE_ID := 11,
    VERIFICATION_IN_PROGRESS_ROLE_ID := 12, VERIFICATION_RETRIES := 3 }

/-- A healthy client configuration: schema loaded, template fine. -/
def ex_cfg : LlmCfg :=
  { schemaLoaded := true, tmpl := .ok id, loads := fun _ => none }

/-- A client whose user-verification schema file failed to load. -/
def ex_cfg_noschema : LlmCfg :=
  { schemaLoaded := false, tmpl := .ok id, loads := fun _ => none }

/-- Transport oracle: the LLM endpoint answers HTTP 500 on every attempt. -/
def ex_oracle_500 : Nat → PostOutcome := fun _ => .resp false none

/-- A fresh first-time session with n retries and empty history. -/
def ex_session (n : Nat) : Session :=
  { retries_left := n, conversation_history := [],
    last_proposed_classification := none, is_update_session := false,
    initial_manageable_role_ids := [], accumulated_unmappable_skills := [] }

/-- An update session holding taxonomy role 1, one greeting in history. -/
def ex_session_up : Session :=
  { retries_left := 3,
    conversation_history := [⟨ChatRole.assistant, .jstr ("hi")⟩],
    last_proposed_classification := none, is_update_session := true,
    initial_manageable_role_ids := [1], accumulated_unmappable_skills := [] }

/-- A non-confirming guidance response. -/
def ex_guidance : LLMVerificationResponse :=
  { classification := none, message_to_user := .jstr ("ok?"),
    is_complete := .jbool false, user_has_confirmed := false,
    unassignable_skills := .jnull }

/- ===== Helper lemmas ===== -/

theorem attempt_post_step (oracle : Nat → PostOutcome) (attempt rem : Nat) :
    attempt_post oracle attempt (rem + 1) =
      match oracle attempt with
      | .readTimeout =>
          if rem > 0 then attempt_post oracle (attempt + 1) rem
          else (Except.error .readTimeout, attempt)
      | .timeoutOther =>
          if rem > 0 then attempt_post oracle (attempt + 1) rem
          else (Except.error .timeoutOther, attempt)
      | .netError => (Except.error .netError, attempt)
      | .resp ok body => (Except.ok (ok, body), attempt) := by
  rfl

/-- C8: the LLM request primitive retries only read-timeouts, at most
`max_attempts = 2` attempts with linearly growing backoff, and every other
transport failure (HTTP error status, undecodable JSON body, missing
expected response structure) is terminal for the call and surfaces as the
`none` failure result rather than as a raised exception: every possible
run returns either `none` or a structurally valid body. -/
theorem claim_C8 (oracle : Nat → PostOutcome) (b : JValue) (body1 : Option JValue) :
    (make_llm_request oracle = none ∨
      ∃ r, make_llm_request oracle = some r ∧ has_expected_structure r = true) ∧
    (oracle 1 = .readTimeout → oracle 2 = .resp true (some b) →
      has_expected_structure b = true →
      make_llm_request oracle = some b ∧ attempts_used oracle = 2) ∧
    (oracle 1 = .readTimeout → oracle 2 = .readTimeout →
      make_llm_request oracle = none ∧ attempts_used oracle = max_attempts) ∧
    (oracle 1 = .netError →
      make_llm_request oracle = none ∧ attempts_used oracle = 1) ∧
    (oracle 1 = .resp false body1 →
      make_llm_request oracle = none ∧ attempts_used oracle = 1) ∧
    (oracle 1 = .resp true none → make_llm_request oracle = none) ∧
    backoff_delay 2 = backoff_delay 1 + backoff_seconds := by
  have hrun : run_attempts oracle = attempt_post oracle 1 2 := rfl
  refine ⟨?_, ?_, ?_, ?_, ?_, ?_, ?_⟩
  · cases h : (run_attempts oracle).1 with
    | error e => exact Or.inl (by simp [make_llm_request, h])
    | ok pr =>
        rcases pr with ⟨ok, body⟩
        cases ok
        · exact Or.inl (by simp [make_llm_request, h])
        · cases body with
          | none => exact Or.inl (by simp [make_llm_request, h])
          | some bd =>
              by_cases hs : has_expected_structure bd = true
              · exact Or.inr ⟨bd, by simp [make_llm_request, h, hs], hs⟩
              · exact Or.inl (by simp [make_llm_request, h, hs])
  · intro h1 h2 hs
    have : run_attempts oracle = (Except.ok (true, some b), 2) := by
      rw [hrun, show (2 : Nat) = 1 + 1 from rfl, attempt_post_step, h1]
      simp [attempt_post_step, h2]
    constructor
    · simp [make_llm_request, this, hs]
    · simp [attempts_used, this]
  · intro h1 h2
    have : run_attempts oracle = (Except.error .readTimeout, 2) := by
      rw [hrun, show (2 : Nat) = 1 + 1 from rfl, attempt_post_step, h1]
      simp [attempt_post_step, h2]
    constructor
    · simp [make_llm_request, this]
    · simp [attempts_used, this, max_attempts]
  · intro h1
    have : run_attempts oracle = (Except.error .netError, 1) := by
      rw [hrun, show (2 : Nat) = 1 + 1 from rfl, attempt_post_step, h1]
    constructor
    · simp [make_llm_request, this]
    · simp [attempts_used, this]
  · intro h1
    have : run_attempts oracle = (Except.ok (false, body1), 1) := by
      rw [hrun, show (2 : Nat) = 1 + 1 from rfl, attempt_post_step, h1]
    constructor
    · simp [make_llm_request, this]
    · simp [attempts_used, this]
  · intro h1
    have : run_attempts oracle = (Except.ok (true, none), 1) := by
      rw [hrun, show (2 : Nat) = 1 + 1 from rfl, attempt_post_step, h1]
    simp [make_llm_request, this]
  · show backoff_seconds * (2 : Nat) = backoff_seconds * (1 : Nat) + backoff_seconds
    push_cast
    ring

/-- Witness for C8: a run whose first attempt times out and whose second
attempt delivers a valid body is retried and succeeds; an HTTP-500 run
fails in one attempt. -/
theorem claim_C8_witness :
    make_llm_request
        (fun a => if a = 1 then PostOutcome.readTimeout
          else .resp true (some (.jobj [(("message"), .jobj [(("content"), .jstr ("x"))])])))
        = some (.jobj [(("message"), .jobj [(("content"), .jstr ("x"))])]) ∧
    make_llm_request ex_oracle_500 = none ∧
    attempts_used ex_oracle_500 = 1 := by
  refine ⟨?_, ?_, ?_⟩
  · exact ((claim_C8
      (fun a => if a = 1 then PostOutcome.readTimeout
        else .resp true (some (.jobj [(("message"), .jobj [(("content"), .jstr ("x"))])])))
      (.jobj [(("message"), .jobj [(("content"), .jstr ("x"))])]) none).2.1
      (by simp) (by simp) (by rfl)).1
  · exact ((claim_C8 ex_oracle_500 .jnull none).2.2.2.2.1 rfl).1
  · exact ((claim_C8 ex_oracle_500 .jnull none).2.2.2.2.1 rfl).2

theorem process_unassignable_skip {s : Session} :
    process_unassignable s .jnull = some s := rfl

theorem process_unassignable_fields {s t : Session} {u : JValue}
    (h : process_unassignable s u = some t) :
    t.retries_left = s.retries_left ∧
    t.conversation_history = s.conversation_history ∧
    t.is_update_session = s.is_update_session := by
  unfold process_unassignable at h
  split at h
  · split at h
    · rename_i items htr
      cases haux : accumulate_unmappable s.accumulated_unmappable_skills items with
      | none => rw [haux] at h; exact absurd h (by simp)
      | some acc =>
          rw [haux] at h
          simp only [Option.map_some', Option.some.injEq] at h
          subst h
          exact ⟨rfl, rfl, rfl⟩
    · exact absurd h (by simp)
  · cases h
    exact ⟨rfl, rfl, rfl⟩

theorem handle_guidance_step_some (ctx : BotCtx) (mr : List Int)
    (sp : String) (s : Session) (f : Bool) (input : String)
    (g : LLMVerificationResponse) :
    handle_guidance_step ctx mr sp s f input (some g) =
      { sent_to_llm := process_user_input ctx mr s f input,
        sent_messages :=
          build_llm_messages sp s.conversation_history (process_user_input ctx mr s f input),
        outcome := guidance_turn_outcome ctx (turn_session_after ctx mr s f input g) g } := rfl

theorem handle_guidance_step_none (ctx : BotCtx) (mr : List Int)
    (sp : String) (s : Session) (f : Bool) (input : String) :
    handle_guidance_step ctx mr sp s f input none =
      { sent_to_llm := process_user_input ctx mr s f input,
        sent_messages :=
          build_llm_messages sp s.conversation_history (process_user_input ctx mr s f input),
        outcome := .awaitReply s false } := rfl

theorem guidance_turn_outcome_nonconfirm (ctx : BotCtx) (s2 : Session)
    (g : LLMVerificationResponse)
    (hconf : g.user_has_confirmed = false)
    (hun : g.unassignable_skills = .jnull)
    (hne : ¬ (s2.retries_left - 1 = 0)) :
    guidance_turn_outcome ctx s2 g =
      .awaitReply { s2 with retries_left := s2.retries_left - 1 } false := by
  simp only [guidance_turn_outcome, hun, process_unassignable_skip, hconf,
    Bool.false_eq_true, if_false, if_neg hne]

theorem handle_guidance_step_nonconfirm (ctx : BotCtx) (mr : List Int)
    (sp : String) (s : Session) (f : Bool) (input : String)
    (g : LLMVerificationResponse)
    (hconf : g.user_has_confirmed = false)
    (hun : g.unassignable_skills = .jnull)
    (hret : 2 ≤ s.retries_left) :
    ∃ s4, (handle_guidance_step ctx mr sp s f input (some g)).outcome = .awaitReply s4 false ∧
      s4.retries_left = s.retries_left - 1 ∧
      s4.conversation_history = s.conversation_history ++
        [⟨ChatRole.user, .jstr (process_user_input ctx mr s f input)⟩,
         ⟨ChatRole.assistant, g.message_to_user⟩,
         ⟨ChatRole.assistant, g.message_to_user⟩] ∧
      s4.is_update_session = s.is_update_session ∧
      s4.last_proposed_classification = g.classification ∧
      s4.accumulated_unmappable_skills = s.accumulated_unmappable_skills := by
  have hne : ¬ ((turn_session_after ctx mr s f input g).retries_left - 1 = 0) := by
    show ¬ (s.retries_left - 1 = 0); omega
  rw [handle_guidance_step_some]
  refine ⟨{ turn_session_after ctx mr s f input g with retries_left := (turn_session_after ctx mr s f input g).retries_left - 1 }, ?_, ?_, ?_, ?_, ?_, ?_⟩
  · exact guidance_turn_outcome_nonconfirm ctx _ g hconf hun hne
  · rfl
  · show (turn_session_after ctx mr s f input g).conversation_history = _
    simp [turn_session_after]
  · rfl
  · rfl
  · rfl

theorem guidance_turn_outcome_final (ctx : BotCtx) (s2 : Session)
    (g : LLMVerificationResponse) (hret : s2.retries_left = 1) :
    is_concluded (guidance_turn_outcome ctx s2 g) = true ∧
    (g.user_has_confirmed = false →
      ∃ r, guidance_turn_outcome ctx s2 g = .concludedFailure r) ∧
    (∀ ids sx, guidance_turn_outcome ctx s2 g = .concludedSuccess ids sx →
      g.user_has_confirmed = true) := by
  unfold guidance_turn_outcome
  cases hpu : process_unassignable s2 g.unassignable_skills with
  | none =>
      exact ⟨rfl, fun _ => ⟨_, rfl⟩, fun ids sx h => by cases h⟩
  | some sC =>
      have hret2 : sC.retries_left - 1 = 0 := by
        rw [(process_unassignable_fields hpu).1, hret]
      cases hconf : g.user_has_confirmed with
      | false =>
          simp only [hconf, Bool.false_eq_true, if_false]
          rw [hret2]
          simp only [if_pos rfl]
          exact ⟨rfl, fun _ => ⟨_, rfl⟩, fun ids sx h => TurnOutcome.noConfusion h⟩
      | true =>
          simp only [hconf, if_true]
          refine ⟨rfl, ?_, ?_⟩
          · intro hc
            exact Bool.noConfusion hc
          · intro ids sx h
            simp [hconf]

/-- C4: a decoded guidance payload lacking `message_to_user` (or
`is_complete`) or whose `user_has_confirmed` is not strictly boolean is
discarded by validation and replaced by the fallback response, which
re-prompts the user for another turn instead of crashing; every payload
that passes validation carries its own `message_to_user` and a boolean
`user_has_confirmed`, and a discarded payload is delivered with
`user_has_confirmed = false`. -/
theorem claim_C4 (kvs : List (String × JValue)) :
    ((lookupKey kvs ("message_to_user") = none ∨
        lookupKey kvs ("is_complete") = none ∨
        (∀ b : Bool, lookupKey kvs ("user_has_confirmed") ≠ some (.jbool b))) →
      parse_verification_payload kvs = none ∧
      (∀ f : String → String, ∀ args_str : String, ∀ loads : String → Option JValue,
        loads args_str = some (.jobj kvs) →
        get_verification_guidance
            { schemaLoaded := true, tmpl := .ok f, loads := loads }
            (some (wrap_function_call_body args_str)) = some fallback_resp)) ∧
    (∀ g, parse_verification_payload kvs = some g →
      lookupKey kvs ("message_to_user") = some g.message_to_user ∧
      lookupKey kvs ("user_has_confirmed") = some (.jbool g.user_has_confirmed)) ∧
    fallback_resp.user_has_confirmed = false ∧
    (∀ ctx mr sp st f input, 2 ≤ Session.retries_left st →
      ∃ s4, (handle_guidance_step ctx mr sp st f input (some fallback_resp)).outcome
            = .awaitReply s4 false ∧
        s4.retries_left = st.retries_left - 1) := by
  refine ⟨?_, ?_, rfl, ?_⟩
  · intro hbad
    have hnone : parse_verification_payload kvs = none := by
      unfold parse_verification_payload
      rcases h1 : lookupKey kvs ("message_to_user") with _ | mv
      · rfl
      rcases h2 : lookupKey kvs ("is_complete") with _ | cv
      · rfl
      rcases h3 : lookupKey kvs ("user_has_confirmed") with _ | uv
      · rfl
      cases uv with
      | jbool bb =>
          rcases hbad with hb | hb | hb
          · rw [h1] at hb; cases hb
          · rw [h2] at hb; cases hb
          · exact absurd h3 (hb bb)
      | jnull => rfl
      | jint n => rfl
      | jstr sv => rfl
      | jlist xs => rfl
      | jobj ks => rfl
    refine ⟨hnone, ?_⟩
    intro f args_str loads hl
    simp [get_verification_guidance, guidance_from_body, wrap_function_call_body,
      first_choice, get_function_call, lookupKey, jTruthy, hl, hnone]
  · intro g hg
    unfold parse_verification_payload at hg
    rcases h1 : lookupKey kvs ("message_to_user") with _ | mv
    · rw [h1] at hg; exact absurd hg (by simp)
    rcases h2 : lookupKey kvs ("is_complete") with _ | cv
    · rw [h1, h2] at hg; exact absurd hg (by simp)
    rcases h3 : lookupKey kvs ("user_has_confirmed") with _ | uv
    · rw [h1, h2, h3] at hg; exact absurd hg (by simp)
    cases uv with
    | jbool bb =>
        rw [h1, h2, h3] at hg
        simp only [Option.some.injEq] at hg
        subst hg
        exact ⟨rfl, rfl⟩
    | jnull => rw [h1, h2, h3] at hg; exact absurd hg (by simp)
    | jint n => rw [h1, h2, h3] at hg; exact absurd hg (by simp)
    | jstr sv => rw [h1, h2, h3] at hg; exact absurd hg (by simp)
    | jlist xs => rw [h1, h2, h3] at hg; exact absurd hg (by simp)
    | jobj ks => rw [h1, h2, h3] at hg; exact absurd hg (by simp)
  · intro ctx mr sp st f input hret
    obtain ⟨s4, ho, hr, _⟩ :=
      handle_guidance_step_nonconfirm ctx mr sp st f input fallback_resp rfl rfl hret
    exact ⟨s4, ho, hr⟩

/-- Payload loader used in the C4 witness. -/
def ex_loads_bad : String → Option JValue :=
  fun s => if s = "bad" then some (.jobj [(("is_complete"), .jbool true)]) else none

/-- Witness for C4: a payload missing `message_to_user` is rejected by
validation and the gateway delivers the fallback response for it. -/
theorem claim_C4_witness :
    parse_verification_payload [(("is_complete"), .jbool true)] = none ∧
    get_verification_guidance
        { schemaLoaded := true, tmpl := .ok id, loads := ex_loads_bad }
        (some (wrap_function_call_body ("bad"))) = some fallback_resp ∧
    fallback_resp.user_has_confirmed = false := by
  have h := claim_C4 [(("is_complete"), .jbool true)]
  have hbad : lookupKey [(("is_complete"), .jbool true)] ("message_to_user") = none ∨
      lookupKey [(("is_complete"), .jbool true)] ("is_complete") = none ∨
      (∀ b : Bool,
        lookupKey [(("is_complete"), .jbool true)] ("user_has_confirmed") ≠ some (.jbool b)) :=
    Or.inl rfl
  exact ⟨(h.1 hbad).1, (h.1 hbad).2 id ("bad") ex_loads_bad rfl, h.2.2.1⟩

theorem py_int_list_conv_ints (ns : List Int) :
    py_int_list_conv (ns.map JValue.jint) = some ns := by
  induction ns with
  | nil => rfl
  | cons n rest ih =>
      show (py_int_list_conv (rest.map JValue.jint)).map (fun l => n :: l) = some (n :: rest)
      rw [ih]
      rfl

/-- C9 counterexample: the category value `["2"]` is not a list of
integers, yet coercion does not produce the empty list — Python `int`
converts the numeric string, so it yields `[2]`. -/
theorem claim_C9_counterexample :
    is_int_list (.jlist [.jstr ("2")]) = false ∧
    coerceCategoryValue (.jlist [.jstr ("2")]) = [2] ∧
    ([2] : List Int) ≠ [] := by
  refine ⟨rfl, by decide, by simp⟩

/-- C9 (amended): after decoding, a category whose value is not a list is
coerced to `[]`; a list value is converted element-wise with Python `int`
semantics, the whole category becoming `[]` only if some element fails
conversion; a list of integers passes through unchanged; and a
classification containing malformed categories never causes the response
to be rejected — validation still returns the payload with every category
coerced independently. -/
theorem claim_C9_amended (v : JValue) (xs : List JValue) (ns : List Int)
    (kvs cats : List (String × JValue)) :
    ((∀ ys, v ≠ .jlist ys) → coerceCategoryValue v = []) ∧
    (py_int_list_conv xs = none → coerceCategoryValue (.jlist xs) = []) ∧
    coerceCategoryValue (.jlist (ns.map JValue.jint)) = ns ∧
    (∀ m ic b, lookupKey kvs ("message_to_user") = some m →
      lookupKey kvs ("is_complete") = some ic →
      lookupKey kvs ("user_has_confirmed") = some (.jbool b) →
      lookupKey kvs ("classification") = some (.jobj cats) →
      ∃ g, parse_verification_payload kvs = some g ∧
        g.classification = some (cats.map (fun p => (p.1, coerceCategoryValue p.2)))) := by
  refine ⟨?_, ?_, ?_, ?_⟩
  · intro hnl
    cases v with
    | jlist ys => exact absurd rfl (hnl ys)
    | jnull => rfl
    | jbool b => rfl
    | jint n => rfl
    | jstr s => rfl
    | jobj ks => rfl
  · intro h
    simp [coerceCategoryValue, h]
  · simp [coerceCategoryValue, py_int_list_conv_ints]
  · intro m ic b h1 h2 h3 h4
    unfold parse_verification_payload
    rw [h1, h2, h3, h4]
    exact ⟨_, rfl, rfl⟩

/-- Witness for C9's amended statement: a classification with one
malformed category (`true`, not a list) and one well-formed category still
validates, the malformed category coerced to `[]` and the well-formed one
unchanged. -/
theorem claim_C9_witness :
    coerceCategoryValue (.jbool true) = [] ∧
    coerceCategoryValue (.jlist [.jint 1, .jint 2]) = [1, 2] ∧
    (∃ g, parse_verification_payload
        [(("message_to_user"), .jstr ("m")), (("is_complete"), .jbool true),
         (("user_has_confirmed"), .jbool false),
         (("classification"),
           .jobj [(("Programming_Language"), .jlist [.jint 1, .jint 2]),
                  (("Operating_System"), .jbool true)])] = some g ∧
      g.classification =
        some [(("Programming_Language"), [1, 2]), (("Operating_System"), [])]) := by
  have h := claim_C9_amended (.jbool true) [] [1, 2]
    [(("message_to_user"), .jstr ("m")), (("is_complete"), .jbool true),
     (("user_has_confirmed"), .jbool false),
     (("classification"),
       .jobj [(("Programming_Language"), .jlist [.jint 1, .jint 2]),
              (("Operating_System"), .jbool true)])]
    [(("Programming_Language"), .jlist [.jint 1, .jint 2]),
     (("Operating_System"), .jbool true)]
  refine ⟨h.1 (fun ys => by simp), ?_, ?_⟩
  · have := h.2.2.1
    simpa using this
  · obtain ⟨g, hp, hc⟩ := h.2.2.2 (.jstr ("m")) (.jbool true) false rfl rfl rfl rfl
    exact ⟨g, hp, by simpa using hc⟩

theorem handle_verification_turn_eq (ctx : BotCtx) (mr : List Int)
    (cfg : LlmCfg) (env : TurnEnv) (s : Session) (f : Bool) (input : String) :
    handle_verification_turn ctx mr cfg env s f input =
      handle_guidance_step ctx mr
        (match cfg.tmpl with
         | .ok fn => fn (available_roles_text ctx)
         | _ => "")
        s f input (get_verification_guidance cfg (make_llm_request env.oracle)) := rfl

theorem process_user_input_final (ctx : BotCtx) (mr : List Int)
    (s : Session) (f : Bool) (input : String) (hret : s.retries_left = 1) :
    ∃ tail, process_user_input ctx mr s f input = final_attempt_instruction ++ tail := by
  unfold process_user_input
  rw [hret]
  by_cases hu : s.is_update_session = true
  · refine ⟨("[System Note: User wants to update roles. ")
      ++ (get_member_current_manageable_roles_text ctx mr).1
      ++ "]\nUser\x27s request: " ++ input, ?_⟩
    simp [hu]
  · refine ⟨input, ?_⟩
    simp [hu]

/-- C1: on a turn where the LLM transport fails outright (here: HTTP 500,
so `_make_llm_request` returns `None`), `get_verification_guidance`
converts the failure into the fallback guidance dict with
`user_has_confirmed = False`, so the state machine treats it as valid
guidance and decrements `retries_left` from 3 to 2 — contradicting the
claim (and the source's own comment at
verification_flow_service.py:271) that gateway-level failures do not
consume the retry budget. The `llm_guidance is None` branch that preserves
the budget is reached only when the verification schema is not loaded. -/
theorem claim_C1_transport_failure_decrements :
    make_llm_request ex_oracle_500 = none ∧
    get_verification_guidance ex_cfg (make_llm_request ex_oracle_500) = some fallback_resp ∧
    fallback_resp.user_has_confirmed = false ∧
    (ex_session 3).retries_left = 3 ∧
    outcome_retries
        (handle_verification_turn ex_ctx [] ex_cfg ⟨ex_oracle_500⟩ (ex_session 3) false
          ("I know Python")).outcome = some 2 ∧
    (get_verification_guidance ex_cfg_noschema (make_llm_request ex_oracle_500) = none ∧
      outcome_retries
        (handle_verification_turn ex_ctx [] ex_cfg_noschema ⟨ex_oracle_500⟩ (ex_session 3) false
          ("I know Python")).outcome = some 3) := by
  exact ⟨rfl, rfl, rfl, rfl, rfl, rfl, rfl⟩

/-- C3 counterexample: a session at `retries_left = 1` whose final-attempt
turn yields no guidance (the verification schema is not loaded, so
`get_verification_guidance` returns `None`) does not conclude: the state
machine re-prompts and returns to waiting for another user reply, with the
counter still at 1. -/
theorem claim_C3_counterexample :
    (ex_session 1).retries_left = 1 ∧
    (handle_verification_turn ex_ctx [] ex_cfg_noschema ⟨ex_oracle_500⟩ (ex_session 1) false
        ("done")).outcome = .awaitReply (ex_session 1) false ∧
    is_concluded
      (handle_verification_turn ex_ctx [] ex_cfg_noschema ⟨ex_oracle_500⟩ (ex_session 1) false
        ("done")).outcome = false := by
  exact ⟨rfl, rfl, rfl⟩

/-- C3 (amended): when `retries_left` has reached 1, the next prompt sent
to the gateway starts with the final-attempt directive, and any turn that
yields guidance concludes the session — success only when the guidance has
`userHasConfirmed == true`, failure otherwise; a turn yielding no guidance
(possible only when the verification schema is not loaded) re-prompts and
returns to awaiting a reply with `retries_left` unchanged. -/
theorem claim_C3_amended (ctx : BotCtx) (mr : List Int) (cfg : LlmCfg)
    (env : TurnEnv) (s : Session) (f : Bool) (input : String)
    (hret : s.retries_left = 1) :
    (∃ tail, (handle_verification_turn ctx mr cfg env s f input).sent_to_llm
        = final_attempt_instruction ++ tail) ∧
    (∀ g, get_verification_guidance cfg (make_llm_request env.oracle) = some g →
      is_concluded (handle_verification_turn ctx mr cfg env s f input).outcome = true ∧
      (g.user_has_confirmed = false →
        ∃ r, (handle_verification_turn ctx mr cfg env s f input).outcome
            = .concludedFailure r) ∧
      (∀ ids s2, (handle_verification_turn ctx mr cfg env s f input).outcome
          = .concludedSuccess ids s2 → g.user_has_confirmed = true)) ∧
    (get_verification_guidance cfg (make_llm_request env.oracle) = none →
      (handle_verification_turn ctx mr cfg env s f input).outcome = .awaitReply s false ∧
      outcome_retries (handle_verification_turn ctx mr cfg env s f input).outcome
        = some s.retries_left) := by
  rw [handle_verification_turn_eq]
  refine ⟨?_, ?_, ?_⟩
  · cases hg : get_verification_guidance cfg (make_llm_request env.oracle) with
    | none =>
        rw [handle_guidance_step_none]
        exact process_user_input_final ctx mr s f input hret
    | some g =>
        rw [handle_guidance_step_some]
        exact process_user_input_final ctx mr s f input hret
  · intro g hg
    rw [hg, handle_guidance_step_some]
    exact guidance_turn_outcome_final ctx (turn_session_after ctx mr s f input g) g hret
  · intro hg
    rw [hg, handle_guidance_step_none]
    exact ⟨rfl, rfl⟩

/-- Witness for C3's amended statement at a concrete final-attempt
session. -/
theorem claim_C3_witness :
    (ex_session 1).retries_left = 1 ∧
    (∃ tail,
      (handle_verification_turn ex_ctx [] ex_cfg ⟨ex_oracle_500⟩ (ex_session 1) false
          ("done")).sent_to_llm = final_attempt_instruction ++ tail) ∧
    is_concluded
      (handle_verification_turn ex_ctx [] ex_cfg ⟨ex_oracle_500⟩ (ex_session 1) false
        ("done")).outcome = true := by
  refine ⟨rfl, ?_, ?_⟩
  · exact (claim_C3_amended ex_ctx [] ex_cfg ⟨ex_oracle_500⟩ (ex_session 1) false ("done") rfl).1
  · exact ((claim_C3_amended ex_ctx [] ex_cfg ⟨ex_oracle_500⟩ (ex_session 1) false ("done")
      rfl).2.1 fallback_resp rfl).1

theorem count_role_append (r : ChatRole) (l1 l2 : List HistEntry) :
    count_role r (l1 ++ l2) = count_role r l1 + count_role r l2 := by
  simp [count_role, List.filter_append]

theorem count_role_system_build (sp : String) (h : List HistEntry) (um : String) :
    count_role ChatRole.system (build_llm_messages sp h um)
      = 1 + count_role ChatRole.system h := by
  show (List.filter _ (⟨ChatRole.system, .jstr sp⟩ ::
    (h ++ [⟨ChatRole.user, .jstr um⟩]))).length = 1 + count_role ChatRole.system h
  rw [List.filter_cons_of_pos rfl]
  simp only [List.length_cons, List.filter_append, List.length_append, count_role]
  have : (List.filter (fun e => e.role == ChatRole.system)
      [(⟨ChatRole.user, .jstr um⟩ : HistEntry)]).length = 0 := rfl
  omega

theorem update_context_note_shape (ctx : BotCtx) (mr : List Int) (input : String) :
    ∃ rest, update_context_note ctx mr input = ("[System Note: ") ++ rest := by
  unfold update_context_note
  by_cases h1 : ((get_member_current_manageable_roles_text ctx mr).2).isEmpty
  · refine ⟨("User is initiating verification (may already be \x27verified\x27 generally). User\x27s request follows.]\nUser: ")
      ++ input, ?_⟩
    rw [if_neg (by simp [h1])]
    conv_rhs => rw [← String.append_assoc]
    rfl
  · rw [if_pos (by simp [h1])]
    by_cases h2 : (update_note_names ctx mr).isEmpty
    · refine ⟨("User is updating roles (may have general \x27verified\x27 status). User\x27s request follows.]\nUser: ")
        ++ input, ?_⟩
      rw [if_neg (by simp [h2])]
      conv_rhs => rw [← String.append_assoc]
      rfl
    · refine ⟨("User is updating roles. Current roles: ")
        ++ String.intercalate (", ") (update_note_names ctx mr)
        ++ ". User\x27s request follows.]\nUser: " ++ input, ?_⟩
      rw [if_pos (by simp [h2])]
      simp only [String.append_assoc]
      conv_rhs => rw [← String.append_assoc]
      rfl

theorem process_user_input_first_update (ctx : BotCtx) (mr : List Int)
    (s : Session) (input : String)
    (hupd : s.is_update_session = true) (hret : s.retries_left ≠ 1) :
    process_user_input ctx mr s true input = update_context_note ctx mr input := by
  unfold process_user_input
  have hb : (s.retries_left == 1) = false := by simp [hret]
  simp [hb, hupd]

/-- Expected session state after the C7 counterexample turn. -/
def ex_c7_note : String :=
  "[System Note: User is updating roles. Current roles: Python. User\x27s request follows.]\nUser: I know Python"

/-- The session produced by the C7 counterexample turn. -/
def ex_c7_after : Session :=
  { retries_left := 2,
    conversation_history :=
      [⟨ChatRole.assistant, .jstr ("hi")⟩, ⟨ChatRole.user, .jstr ex_c7_note⟩,
       ⟨ChatRole.assistant, .jstr ("ok?")⟩, ⟨ChatRole.assistant, .jstr ("ok?")⟩],
    last_proposed_classification := none, is_update_session := true,
    initial_manageable_role_ids := [1], accumulated_unmappable_skills := [] }

/-- C7 counterexample: on the first substantive reply of an update
session, the note summarizing the member's current roles is *not*
appended as an assistant-authored history entry — it is prepended to the
user's text and recorded inside the `user`-role entry; every
assistant-role entry carries only bot/LLM messages. -/
theorem claim_C7_counterexample :
    (handle_guidance_step ex_ctx [1] ("sys") ex_session_up true ("I know Python")
        (some ex_guidance)).outcome = .awaitReply ex_c7_after false ∧
    ex_c7_after.conversation_history.filter (fun e => e.role == ChatRole.assistant)
      = [⟨ChatRole.assistant, .jstr ("hi")⟩, ⟨ChatRole.assistant, .jstr ("ok?")⟩,
         ⟨ChatRole.assistant, .jstr ("ok?")⟩] ∧
    (⟨ChatRole.user, .jstr ex_c7_note⟩ : HistEntry) ∈ ex_c7_after.conversation_history ∧
    ChatRole.user ≠ ChatRole.assistant := by
  refine ⟨rfl, rfl, ?_, by decide⟩
  exact List.mem_cons_of_mem _ (List.mem_cons_self _ _)

/-- C7 (amended): on the first substantive user reply of an update
session, the current-roles note (a `[System Note: ...]` text) is prepended
to the user's message and recorded as the `user`-authored history entry of
that turn — not as an assistant or system entry — and since the history
never contains system-role entries, the request structure sent to the LLM
contains exactly one system message. -/
theorem claim_C7_amended (ctx : BotCtx) (mr : List Int) (sp : String)
    (s : Session) (input : String) (g : LLMVerificationResponse)
    (hupd : s.is_update_session = true)
    (hret : s.retries_left ≠ 1)
    (hsys : count_role ChatRole.system s.conversation_history = 0) :
    (handle_guidance_step ctx mr sp s true input (some g)).sent_to_llm
        = update_context_note ctx mr input ∧
    (∃ rest, update_context_note ctx mr input = ("[System Note: ") ++ rest) ∧
    (turn_session_after ctx mr s true input g).conversation_history
        = s.conversation_history ++
          [⟨ChatRole.user, .jstr (update_context_note ctx mr input)⟩,
           ⟨ChatRole.assistant, g.message_to_user⟩,
           ⟨ChatRole.assistant, g.message_to_user⟩] ∧
    count_role ChatRole.system
        (turn_session_after ctx mr s true input g).conversation_history = 0 ∧
    count_role ChatRole.system
        (handle_guidance_step ctx mr sp s true input (some g)).sent_messages = 1 := by
  have hpi := process_user_input_first_update ctx mr s input hupd hret
  have hhist : (turn_session_after ctx mr s true input g).conversation_history
      = s.conversation_history ++
        [⟨ChatRole.user, .jstr (update_context_note ctx mr input)⟩,
         ⟨ChatRole.assistant, g.message_to_user⟩,
         ⟨ChatRole.assistant, g.message_to_user⟩] := by
    show (s.conversation_history ++ _ ++ _) ++ _ = _
    rw [hpi]
    simp
  refine ⟨?_, update_context_note_shape ctx mr input, hhist, ?_, ?_⟩
  · rw [handle_guidance_step_some]
    exact hpi
  · rw [hhist, count_role_append, hsys]
    rfl
  · rw [handle_guidance_step_some]
    show count_role ChatRole.system
      (build_llm_messages sp s.conversation_history (process_user_input ctx mr s true input)) = 1
    rw [count_role_system_build, hsys]

/-- Witness for C7's amended statement at a concrete update session. -/
theorem claim_C7_witness :
    ex_session_up.is_update_session = true ∧
    ex_session_up.retries_left ≠ 1 ∧
    (handle_guidance_step ex_ctx [1] ("sys") ex_session_up true ("I know Python")
        (some ex_guidance)).sent_to_llm = update_context_note ex_ctx [1] ("I know Python") ∧
    count_role ChatRole.system
        (handle_guidance_step ex_ctx [1] ("sys") ex_session_up true ("I know Python")
          (some ex_guidance)).sent_messages = 1 := by
  have h := claim_C7_amended ex_ctx [1] ("sys") ex_session_up ("I know Python")
    ex_guidance rfl (by decide) rfl
  exact ⟨rfl, by decide, h.1, h.2.2.2.2⟩

/-- C10 (implicit): on every turn where the gateway returns valid
guidance, the state machine appends the assistant's `message_to_user` to
the session's conversation history twice consecutively (the duplicated
lines at verification_flow_service.py:274-279), so a run of n successful
guidance turns adds exactly 2n assistant entries (and n user entries)
rather than one assistant entry per relayed message. -/
theorem claim_C10 (ctx : BotCtx) (mr : List Int) (sp : String) :
    (∀ s f input g, g.user_has_confirmed = false → g.unassignable_skills = .jnull →
      2 ≤ Session.retries_left s →
      ∃ s4, (handle_guidance_step ctx mr sp s f input (some g)).outcome
          = .awaitReply s4 false ∧
        s4.conversation_history = s.conversation_history ++
          [⟨ChatRole.user, .jstr (process_user_input ctx mr s f input)⟩,
           ⟨ChatRole.assistant, g.message_to_user⟩,
           ⟨ChatRole.assistant, g.message_to_user⟩] ∧
        count_role ChatRole.assistant s4.conversation_history
          = count_role ChatRole.assistant s.conversation_history + 2) ∧
    (∀ turns : List (String × Option LLMVerificationResponse), ∀ s f,
      (∀ p ∈ turns, ∃ g, p.2 = some g ∧ g.user_has_confirmed = false ∧
        g.unassignable_skills = JValue.jnull) →
      turns.length < Session.retries_left s →
      ∃ s5, run_dm_turns ctx mr sp s f turns = Sum.inl s5 ∧
        count_role ChatRole.assistant s5.conversation_history
          = count_role ChatRole.assistant s.conversation_history + 2 * turns.length ∧
        s5.retries_left = s.retries_left - turns.length) := by
  have hstep : ∀ s f input g, g.user_has_confirmed = false →
      g.unassignable_skills = .jnull → 2 ≤ Session.retries_left s →
      ∃ s4, (handle_guidance_step ctx mr sp s f input (some g)).outcome
          = .awaitReply s4 false ∧
        s4.retries_left = s.retries_left - 1 ∧
        s4.conversation_history = s.conversation_history ++
          [⟨ChatRole.user, .jstr (process_user_input ctx mr s f input)⟩,
           ⟨ChatRole.assistant, g.message_to_user⟩,
           ⟨ChatRole.assistant, g.message_to_user⟩] ∧
        count_role ChatRole.assistant s4.conversation_history
          = count_role ChatRole.assistant s.conversation_history + 2 := by
    intro s f input g hconf hun hret
    obtain ⟨s4, ho, hr, hh, _, _, _⟩ :=
      handle_guidance_step_nonconfirm ctx mr sp s f input g hconf hun hret
    refine ⟨s4, ho, hr, hh, ?_⟩
    rw [hh, count_role_append]
    rfl
  constructor
  · intro s f input g hconf hun hret
    obtain ⟨s4, ho, _, hh, hc⟩ := hstep s f input g hconf hun hret
    exact ⟨s4, ho, hh, hc⟩
  · intro turns
    induction turns with
    | nil =>
        intro s f hall hlen
        exact ⟨s, rfl, by simp, by simp⟩
    | cons p rest ih =>
        rcases p with ⟨input, gq⟩
        intro s f hall hlen
        obtain ⟨g, hp2, hconf, hun⟩ := hall (input, gq) (List.mem_cons_self _ _)
        simp only at hp2
        subst hp2
        have hret2 : 2 ≤ s.retries_left := by
          simp only [List.length_cons] at hlen; omega
        obtain ⟨s4, ho, hr, hh, hc4⟩ := hstep s f input g hconf hun hret2
        obtain ⟨s5, hrun, hcount, hret5⟩ := ih s4 false
          (fun q hq => hall q (List.mem_cons_of_mem _ hq))
          (by simp only [List.length_cons] at hlen; omega)
        refine ⟨s5, ?_, ?_, ?_⟩
        · show (match (handle_guidance_step ctx mr sp s f input (some g)).outcome with
            | .awaitReply s2 f2 => run_dm_turns ctx mr sp s2 f2 rest
            | o => Sum.inr o) = Sum.inl s5
          rw [ho]
          exact hrun
        · rw [hcount, hc4]
          simp only [List.length_cons]
          ring
        · rw [hret5, hr]
          simp only [List.length_cons]
          omega

/-- Witness for C10: two consecutive non-confirming guidance turns on a
fresh session add exactly four assistant entries and consume two
retries. -/
theorem claim_C10_witness :
    ∃ s5, run_dm_turns ex_ctx [] ("sys") (ex_session 3) false
        [(("a"), some ex_guidance), (("b"), some ex_guidance)] = Sum.inl s5 ∧
      count_role ChatRole.assistant s5.conversation_history
        = count_role ChatRole.assistant (ex_session 3).conversation_history + 2 * 2 ∧
      s5.retries_left = 1 := by
  obtain ⟨s5, h1, h2, h3⟩ := (claim_C10 ex_ctx [] ("sys")).2
    [(("a"), some ex_guidance), (("b"), some ex_guidance)] (ex_session 3) false
    (by
      intro p hp
      cases hp with
      | head => exact ⟨ex_guidance, rfl, rfl, rfl⟩
      | tail _ hp2 =>
          cases hp2 with
          | head => exact ⟨ex_guidance, rfl, rfl, rfl⟩
          | tail _ hp3 => cases hp3)
    (by decide)
  exact ⟨s5, h1, by simpa using h2, by simpa using h3⟩

theorem mem_append_unique (cond : Int → Bool) (l : List Int) :
    ∀ (acc : List Int) (x : Int),
      x ∈ append_unique cond acc l ↔ x ∈ acc ∨ (x ∈ l ∧ cond x = true) := by
  induction l with
  | nil =>
      intro acc x
      simp [append_unique]
  | cons r rest ih =>
      intro acc x
      show x ∈ append_unique cond (if cond r && !(decide (r ∈ acc)) then acc ++ [r] else acc) rest
        ↔ x ∈ acc ∨ (x ∈ r :: rest ∧ cond x = true)
      rw [ih]
      by_cases hc : cond r = true
      · by_cases hm : r ∈ acc
        · have hcnd : (cond r && !(decide (r ∈ acc))) = false := by simp [hm]
          rw [hcnd]
          simp only [Bool.false_eq_true, if_false]
          constructor
          · rintro (h | ⟨h1, h2⟩)
            · exact Or.inl h
            · exact Or.inr ⟨List.mem_cons_of_mem _ h1, h2⟩
          · rintro (h | ⟨h1, h2⟩)
            · exact Or.inl h
            · rcases List.mem_cons.mp h1 with rfl | h1
              · exact Or.inl hm
              · exact Or.inr ⟨h1, h2⟩
        · have hcnd : (cond r && !(decide (r ∈ acc))) = true := by simp [hc, hm]
          rw [hcnd]
          simp only [if_true]
          constructor
          · rintro (h | ⟨h1, h2⟩)
            · rcases List.mem_append.mp h with h | h
              · exact Or.inl h
              · rw [List.mem_singleton] at h
                subst h
                exact Or.inr ⟨List.mem_cons_self _ _, hc⟩
            · exact Or.inr ⟨List.mem_cons_of_mem _ h1, h2⟩
          · rintro (h | ⟨h1, h2⟩)
            · exact Or.inl (List.mem_append_left _ h)
            · rcases List.mem_cons.mp h1 with rfl | h1
              · exact Or.inl (List.mem_append_right _ (List.mem_singleton.mpr rfl))
              · exact Or.inr ⟨h1, h2⟩
      · have hc2 : cond r = false := by revert hc; cases cond r <;> simp
        have hcnd : (cond r && !(decide (r ∈ acc))) = false := by simp [hc2]
        rw [hcnd]
        simp only [Bool.false_eq_true, if_false]
        constructor
        · rintro (h | ⟨h1, h2⟩)
          · exact Or.inl h
          · exact Or.inr ⟨List.mem_cons_of_mem _ h1, h2⟩
        · rintro (h | ⟨h1, h2⟩)
          · exact Or.inl h
          · rcases List.mem_cons.mp h1 with rfl | h1
            · rw [h2] at hc2; cases hc2
            · exact Or.inr ⟨h1, h2⟩

theorem mem_conclude_add_iff (ctx : BotCtx) (mr p : List Int)
    (hv : ctx.VERIFIED_ROLE_ID ∈ ctx.guildRoles) (x : Int) :
    x ∈ (conclude_role_delta ctx mr true p).1 ↔
      ((x = ctx.VERIFIED_ROLE_ID ∧ ctx.VERIFIED_ROLE_ID ∉ mr) ∨
       (x ∈ p ∧ x ∈ all_manageable_role_ids ctx.categorized_server_roles ∧
        x ∈ ctx.guildRoles ∧ x ∉ mr)) := by
  by_cases hvm : ctx.VERIFIED_ROLE_ID ∈ mr <;>
    simp [conclude_role_delta, mem_append_unique, hv, hvm] <;> tauto

theorem mem_conclude_remove_iff (ctx : BotCtx) (mr p : List Int)
    (hv : ctx.VERIFIED_ROLE_ID ∈ ctx.guildRoles) (x : Int) :
    x ∈ (conclude_role_delta ctx mr true p).2 ↔
      ((x = ctx.VERIFICATION_IN_PROGRESS_ROLE_ID ∧
          ctx.VERIFICATION_IN_PROGRESS_ROLE_ID ∈ ctx.guildRoles ∧
          ctx.VERIFICATION_IN_PROGRESS_ROLE_ID ∈ mr) ∨
       (x = ctx.UNVERIFIED_ROLE_ID ∧ ctx.UNVERIFIED_ROLE_ID ∈ ctx.guildRoles ∧
          ctx.UNVERIFIED_ROLE_ID ∈ mr) ∨
       (x ∈ mr ∧ x ∈ all_manageable_role_ids ctx.categorized_server_roles ∧ x ∉ p)) := by
  by_cases hig : ctx.VERIFICATION_IN_PROGRESS_ROLE_ID ∈ ctx.guildRoles <;>
  by_cases him : ctx.VERIFICATION_IN_PROGRESS_ROLE_ID ∈ mr <;>
  by_cases hug : ctx.UNVERIFIED_ROLE_ID ∈ ctx.guildRoles <;>
  by_cases hum : ctx.UNVERIFIED_ROLE_ID ∈ mr <;>
    simp [conclude_role_delta, mem_append_unique, hv, hig, him, hug, hum] <;> tauto

theorem mem_apply_role_delta (mr : List Int) (d : List Int × List Int) (x : Int) :
    x ∈ apply_role_delta mr d ↔ (x ∈ mr ∧ x ∉ d.2) ∨ x ∈ d.1 := by
  simp [apply_role_delta, List.mem_filter, List.mem_append]

/-- C5: on a successful conclusion the reconciler's computed role lists
agree, as sets, with the spec formulas
`rolesToAdd = (verified if not held) ∪ ((P ∩ T) \ C)` and
`rolesToRemove = (in-progress if held) ∪ (unverified if held) ∪ ((C ∩ T) \ P)`,
whenever the member's current roles and the proposed roles resolve on the
guild and the verified-status role exists; in particular taxonomy roles
held but absent from the proposal are removed (update sessions replace
rather than union). -/
theorem claim_C5 (ctx : BotCtx) (memberRoles proposed : List Int)
    (hC : ∀ r ∈ memberRoles, r ∈ ctx.guildRoles)
    (hP : ∀ r ∈ proposed, r ∈ ctx.guildRoles)
    (hv : ctx.VERIFIED_ROLE_ID ∈ ctx.guildRoles) :
    (conclude_role_delta ctx memberRoles true proposed).1.toFinset
        = spec_roles_to_add ctx memberRoles.toFinset proposed.toFinset ∧
    (conclude_role_delta ctx memberRoles true proposed).2.toFinset
        = spec_roles_to_remove ctx memberRoles.toFinset proposed.toFinset := by
  constructor
  · apply Finset.ext
    intro x
    rw [List.mem_toFinset, mem_conclude_add_iff ctx memberRoles proposed hv x]
    have hPx := hP x
    simp only [spec_roles_to_add, Finset.mem_union, Finset.mem_sdiff, Finset.mem_inter,
      taxonomy_finset, List.mem_toFinset]
    split_ifs <;>
      simp only [Finset.mem_singleton, Finset.not_mem_empty, false_or, or_false] <;>
      tauto
  · apply Finset.ext
    intro x
    rw [List.mem_toFinset, mem_conclude_remove_iff ctx memberRoles proposed hv x]
    have hCi := hC ctx.VERIFICATION_IN_PROGRESS_ROLE_ID
    have hCu := hC ctx.UNVERIFIED_ROLE_ID
    simp only [spec_roles_to_remove, Finset.mem_union, Finset.mem_sdiff, Finset.mem_inter,
      taxonomy_finset, List.mem_toFinset]
    split_ifs <;>
      simp only [Finset.mem_singleton, Finset.not_mem_empty, false_or, or_false] <;>
      tauto

/-- Witness for C5 on a concrete update: member holds taxonomy roles 1,8
and verified 10; proposal is 2,8; the delta adds 2 and removes 1. -/
theorem claim_C5_witness :
    (∀ r ∈ ([1, 8, 10] : List Int), r ∈ ex_ctx.guildRoles) ∧
    (conclude_role_delta ex_ctx [1, 8, 10] true [2, 8]).1.toFinset
        = spec_roles_to_add ex_ctx ([1, 8, 10] : List Int).toFinset ([2, 8] : List Int).toFinset ∧
    (conclude_role_delta ex_ctx [1, 8, 10] true [2, 8]).1 = [2] ∧
    (conclude_role_delta ex_ctx [1, 8, 10] true [2, 8]).2 = [1] := by
  refine ⟨by decide, ?_, by decide, by decide⟩
  exact (claim_C5 ex_ctx [1, 8, 10] [2, 8] (by decide) (by decide) (by decide)).1

/-- C6: flattening a classification takes the union of the per-category
lists (the concrete round-trip example included), and reconciliation is
idempotent: a member already holding exactly the proposed taxonomy roles
plus the verified-status role gets an empty delta, and re-reconciling
after applying the computed delta (same proposal, resulting role set)
yields an empty delta — under the standing assumptions that the status
roles are not taxonomy roles and everything resolves on the guild. -/
theorem claim_C6 (ctx : BotCtx) (memberRoles proposed : List Int)
    (hC : ∀ r ∈ memberRoles, r ∈ ctx.guildRoles)
    (hv : ctx.VERIFIED_ROLE_ID ∈ ctx.guildRoles)
    (hVT : ctx.VERIFIED_ROLE_ID ∉ all_manageable_role_ids ctx.categorized_server_roles)
    (hUT : ctx.UNVERIFIED_ROLE_ID ∉ all_manageable_role_ids ctx.categorized_server_roles)
    (hIT : ctx.VERIFICATION_IN_PROGRESS_ROLE_ID ∉ all_manageable_role_ids ctx.categorized_server_roles)
    (hUV : ctx.UNVERIFIED_ROLE_ID ≠ ctx.VERIFIED_ROLE_ID)
    (hIV : ctx.VERIFICATION_IN_PROGRESS_ROLE_ID ≠ ctx.VERIFIED_ROLE_ID) :
    flatten_classification
        (some [(("Programming_Language"), [1, 2]), (("Operating_System"), [8])]) = [1, 2, 8] ∧
    (flatten_classification
        (some [(("Programming_Language"), [1, 2]), (("Operating_System"), [8])])).toFinset
      = ({1, 2, 8} : Finset Int) ∧
    ((∀ r : Int, r ∈ memberRoles ↔
        (r ∈ proposed ∧ r ∈ all_manageable_role_ids ctx.categorized_server_roles) ∨
        r = ctx.VERIFIED_ROLE_ID) →
      conclude_role_delta ctx memberRoles true proposed = ([], [])) ∧
    conclude_role_delta ctx
        (apply_role_delta memberRoles (conclude_role_delta ctx memberRoles true proposed))
        true proposed = ([], []) := by
  refine ⟨rfl, by decide, ?_, ?_⟩
  · intro hEx
    have hadd : (conclude_role_delta ctx memberRoles true proposed).1 = [] := by
      rw [List.eq_nil_iff_forall_not_mem]
      intro x hx
      rw [mem_conclude_add_iff ctx memberRoles proposed hv x] at hx
      rcases hx with ⟨rfl, hco⟩ | ⟨h1, h2, h3, h4⟩
      · exact hco ((hEx _).mpr (Or.inr rfl))
      · exact h4 ((hEx _).mpr (Or.inl ⟨h1, h2⟩))
    have hrem : (conclude_role_delta ctx memberRoles true proposed).2 = [] := by
      rw [List.eq_nil_iff_forall_not_mem]
      intro x hx
      rw [mem_conclude_remove_iff ctx memberRoles proposed hv x] at hx
      rcases hx with ⟨rfl, hg, hm⟩ | ⟨rfl, hg, hm⟩ | ⟨hm, ht, hp⟩
      · rcases (hEx _).mp hm with ⟨hp2, hT⟩ | hV
        · exact hIT hT
        · exact hIV hV
      · rcases (hEx _).mp hm with ⟨hp2, hT⟩ | hV
        · exact hUT hT
        · exact hUV hV
      · rcases (hEx _).mp hm with ⟨hp2, hT⟩ | hV
        · exact hp hp2
        · subst hV
          exact hVT ht
    exact Prod.ext hadd hrem
  · set d := conclude_role_delta ctx memberRoles true proposed with hd
    set mr2 := apply_role_delta memberRoles d with hmr2
    have hmem2 : ∀ x : Int, x ∈ mr2 ↔ (x ∈ memberRoles ∧ x ∉ d.2) ∨ x ∈ d.1 := by
      intro x
      rw [hmr2]
      exact mem_apply_role_delta memberRoles d x
    have hmemadd : ∀ x : Int, x ∈ d.1 ↔
        ((x = ctx.VERIFIED_ROLE_ID ∧ ctx.VERIFIED_ROLE_ID ∉ memberRoles) ∨
         (x ∈ proposed ∧ x ∈ all_manageable_role_ids ctx.categorized_server_roles ∧
          x ∈ ctx.guildRoles ∧ x ∉ memberRoles)) := by
      intro x
      rw [hd]
      exact mem_conclude_add_iff ctx memberRoles proposed hv x
    have hmemrem : ∀ x : Int, x ∈ d.2 ↔
        ((x = ctx.VERIFICATION_IN_PROGRESS_ROLE_ID ∧
            ctx.VERIFICATION_IN_PROGRESS_ROLE_ID ∈ ctx.guildRoles ∧
            ctx.VERIFICATION_IN_PROGRESS_ROLE_ID ∈ memberRoles) ∨
         (x = ctx.UNVERIFIED_ROLE_ID ∧ ctx.UNVERIFIED_ROLE_ID ∈ ctx.guildRoles ∧
            ctx.UNVERIFIED_ROLE_ID ∈ memberRoles) ∨
         (x ∈ memberRoles ∧ x ∈ all_manageable_role_ids ctx.categorized_server_roles ∧
          x ∉ proposed)) := by
      intro x
      rw [hd]
      exact mem_conclude_remove_iff ctx memberRoles proposed hv x
    have hC2 : ∀ r ∈ mr2, r ∈ ctx.guildRoles := by
      intro r hr
      rcases (hmem2 r).mp hr with ⟨hr1, _⟩ | hr1
      · exact hC r hr1
      · rcases (hmemadd r).mp hr1 with ⟨rfl, _⟩ | ⟨_, _, hg, _⟩
        · exact hv
        · exact hg
    have hadd2 : (conclude_role_delta ctx mr2 true proposed).1 = [] := by
      rw [List.eq_nil_iff_forall_not_mem]
      intro x hx
      rw [mem_conclude_add_iff ctx mr2 proposed hv x] at hx
      rcases hx with ⟨rfl, hco⟩ | ⟨h1, h2, h3, h4⟩
      · -- the verified role is always in mr2
        apply hco
        by_cases hvm : ctx.VERIFIED_ROLE_ID ∈ memberRoles
        · refine (hmem2 _).mpr (Or.inl ⟨hvm, ?_⟩)
          intro hvr
          rcases (hmemrem _).mp hvr with ⟨he, _, _⟩ | ⟨he, _, _⟩ | ⟨_, hT, _⟩
          · exact hIV he.symm
          · exact hUV he.symm
          · exact hVT hT
        · exact (hmem2 _).mpr (Or.inr ((hmemadd _).mpr (Or.inl ⟨rfl, hvm⟩)))
      · -- every proposed taxonomy role is in mr2 after application
        apply h4
        by_cases hxm : x ∈ memberRoles
        · refine (hmem2 _).mpr (Or.inl ⟨hxm, ?_⟩)
          intro hxr
          rcases (hmemrem _).mp hxr with ⟨he, _, _⟩ | ⟨he, _, _⟩ | ⟨_, _, hnp⟩
          · subst he; exact hIT h2
          · subst he; exact hUT h2
          · exact hnp h1
        · exact (hmem2 _).mpr (Or.inr ((hmemadd _).mpr (Or.inr ⟨h1, h2, h3, hxm⟩)))
    have hrem2 : (conclude_role_delta ctx mr2 true proposed).2 = [] := by
      rw [List.eq_nil_iff_forall_not_mem]
      intro x hx
      rw [mem_conclude_remove_iff ctx mr2 proposed hv x] at hx
      rcases hx with ⟨rfl, hg, hm⟩ | ⟨rfl, hg, hm⟩ | ⟨hm, ht, hp⟩
      · -- the in-progress marker cannot survive into mr2
        rcases (hmem2 _).mp hm with ⟨hm1, hnr⟩ | hm1
        · exact hnr ((hmemrem _).mpr (Or.inl ⟨rfl, hg, hm1⟩))
        · rcases (hmemadd _).mp hm1 with ⟨he, _⟩ | ⟨_, hT, _, _⟩
          · exact hIV he
          · exact hIT hT
      · rcases (hmem2 _).mp hm with ⟨hm1, hnr⟩ | hm1
        · exact hnr ((hmemrem _).mpr (Or.inr (Or.inl ⟨rfl, hg, hm1⟩)))
        · rcases (hmemadd _).mp hm1 with ⟨he, _⟩ | ⟨_, hT, _, _⟩
          · exact hUV he
          · exact hUT hT
      · -- a held taxonomy role outside the proposal was removed
        rcases (hmem2 _).mp hm with ⟨hm1, hnr⟩ | hm1
        · exact hnr ((hmemrem _).mpr (Or.inr (Or.inr ⟨hm1, ht, hp⟩)))
        · rcases (hmemadd _).mp hm1 with ⟨he, _⟩ | ⟨hp2, _, _, _⟩
          · subst he; exact hVT ht
          · exact hp hp2
    exact Prod.ext hadd2 hrem2

/-- Witness for C6: member holding exactly the proposed taxonomy roles
{1,2,8} plus verified role 10 gets an empty delta, and re-reconciling
after applying a real delta is also empty. -/
theorem claim_C6_witness :
    conclude_role_delta ex_ctx [1, 2, 8, 10] true [1, 2, 8] = ([], []) ∧
    conclude_role_delta ex_ctx
        (apply_role_delta [1, 8, 10] (conclude_role_delta ex_ctx [1, 8, 10] true [1, 2, 8]))
        true [1, 2, 8] = ([], []) ∧
    (flatten_classification
        (some [(("Programming_Language"), [1, 2]), (("Operating_System"), [8])])).toFinset
      = ({1, 2, 8} : Finset Int) := by
  have h1 := claim_C6 ex_ctx [1, 2, 8, 10] [1, 2, 8] (by decide) (by decide)
    (by decide) (by decide) (by decide) (by decide) (by decide)
  have h2 := claim_C6 ex_ctx [1, 8, 10] [1, 2, 8] (by decide) (by decide)
    (by decide) (by decide) (by decide) (by decide) (by decide)
  have hEx : ∀ r : Int, r ∈ ([1, 2, 8, 10] : List Int) ↔
      (r ∈ ([1, 2, 8] : List Int) ∧
        r ∈ all_manageable_role_ids ex_ctx.categorized_server_roles) ∨ r = (10 : Int) := by
    intro r
    have hm : all_manageable_role_ids ex_ctx.categorized_server_roles = [1, 2, 8] := rfl
    rw [hm]
    simp only [List.mem_cons, List.mem_singleton, List.not_mem_nil, or_false]
    tauto
  exact ⟨h1.2.2.1 hEx, h2.2.2.2, h1.2.1⟩

/-- The store fixture for the C2 witness: user 7 has an active session. -/
def ex_store : Store := [(7, ex_session 3)]

/-- C2: at most one session per user — `start_verification_process`
short-circuits with the already-in-progress notice and leaves the store
untouched when an entry exists for the user; and `_conclude_verification`
removes the session entry exactly once, as its very first step, before any
role mutation, DM, or admin notification of conclusion. -/
theorem claim_C2 (ctx : BotCtx) (store : Store) (uid : Nat) (memberRoles : List Int) :
    (store_contains store uid = true →
      ∀ mention gname,
        start_verification_process ctx store uid false memberRoles mention gname
          = (store, .alreadyActive)) ∧
    (∀ member_in_guild success proposed reason gname dname,
      ∃ rest,
        (conclude_verification ctx store uid member_in_guild memberRoles success proposed
            reason gname dname).2 = ConcludeEffect.pop_session uid :: rest ∧
        rest.all (fun e => !(is_pop_effect e)) = true ∧
        (conclude_verification ctx store uid member_in_guild memberRoles success proposed
            reason gname dname).1 = store_erase store uid) := by
  constructor
  · intro hc mention gname
    unfold start_verification_process
    rw [if_neg (by simp), if_pos hc]
  · intro mig success proposed reason gname dname
    cases mig with
    | false => exact ⟨[], rfl, rfl, rfl⟩
    | true =>
        refine ⟨_, rfl, ?_, rfl⟩
        cases hdm : conclude_final_dm ctx success reason gname <;>
          simp only [hdm] <;>
            split_ifs <;>
              simp [is_pop_effect]

/-- Witness for C2 at a concrete store with an active session for user 7. -/
theorem claim_C2_witness :
    store_contains ex_store 7 = true ∧
    start_verification_process ex_ctx ex_store 7 false [] ("m") ("g")
      = (ex_store, .alreadyActive) ∧
    (∃ rest,
      (conclude_verification ex_ctx ex_store 7 true [] false [] ("r") ("g") ("d")).2
        = ConcludeEffect.pop_session 7 :: rest ∧
      rest.all (fun e => !(is_pop_effect e)) = true) := by
  have h := claim_C2 ex_ctx ex_store 7 []
  refine ⟨rfl, h.1 rfl ("m") ("g"), ?_⟩
  obtain ⟨rest, h1, h2, _⟩ := h.2 true false [] ("r") ("g") ("d")
  exact ⟨rest, h1, h2⟩

end Serversage
